import Mathlib

/-!
# dali-demo: pick/drag interaction controller and image channel control

A shallow embedding of

* `examples/chipmunk-physics/physics-demo-controller.cpp`
  (`PhysicsDemoController::OnTouched`, `PhysicsDemoController::OnKeyEv`), and
* `examples/styling/image-channel-control-impl.cpp`
  (`ImageChannelControl::SetVisibility`, `OnStateChangeAnimationFinished`,
  `SetImage`, `SetProperty`, `GetProperty`).

The handlers are pure functions from the object's members and the state of the
collaborator (physics engine, toolkit) to the new members, the new collaborator
state and the list of calls issued, in program order.  The collaborators are
not part of the repository; they are parameters (`PhysicsImpl`, `Toolkit`).

`float` values are only stored and handed on by the code modelled here, never
computed with, so the scalar type `F` is a parameter.
-/

namespace Dali

/-- A raw C++ pointer (`cpBody*`, `cpConstraint*`): an address, `0` is `nullptr`. -/
abbrev Ptr := Nat

/-- The null pointer. -/
abbrev nullptr : Ptr := 0

/-- Dali::Vector2. -/
structure Vector2 (F : Type) where
  x : F
  y : F
  deriving DecidableEq, Repr

/-- Dali::Vector3. -/
structure Vector3 (F : Type) where
  x : F
  y : F
  z : F
  deriving DecidableEq, Repr

/-- The converting constructor `Vector3(const Vector2&)`: z is zero. -/
def Vector3.ofVector2 {F : Type} [Zero F] (v : Vector2 F) : Vector3 F :=
  ⟨v.x, v.y, 0⟩

/-- Dali::PointState::Type (`DOWN` and `UP` are aliases of `STARTED` and `FINISHED`). -/
inductive PointState
  | STARTED
  | FINISHED
  | MOTION
  | LEAVE
  | STATIONARY
  | INTERRUPTED
  deriving DecidableEq, Repr

/-- The part of a Dali::TouchEvent the handler reads: `GetState(0)` and
`GetScreenPosition(0)`. -/
structure TouchEvent (F : Type) where
  GetState : PointState
  GetScreenPosition : Vector2 F
  deriving DecidableEq, Repr

/-- Dali::KeyEvent::State. -/
inductive KeyState
  | DOWN
  | UP
  deriving DecidableEq, Repr

/-- The part of a Dali::KeyEvent the handler reads: `GetState()`, `GetKeyCode()`,
`GetKeyString()`, and the answer of `IsKey(event, DALI_KEY_ESCAPE) ||
IsKey(event, DALI_KEY_BACK)`. -/
structure KeyEvent where
  GetState : KeyState
  GetKeyCode : Int
  GetKeyString : String
  isEscapeOrBack : Bool
  deriving DecidableEq, Repr

/-- A pointer-finish or pointer-interrupted touch event. -/
def TouchEvent.isRelease {F : Type} (t : TouchEvent F) : Bool :=
  decide (t.GetState = PointState.FINISHED ∨ t.GetState = PointState.INTERRUPTED)

end Dali

namespace PhysicsDemo

open Dali

/-- The out-parameters and return value of `PhysicsImpl::HitTest`. -/
structure HitResult (F : Type) where
  body : Ptr
  localPivot : Vector3 F
  pickingDistance : F
  deriving DecidableEq, Repr

/-- The collaborators of the controller: `PhysicsImpl` (declared in
`physics-impl.h`, not part of the sources at hand) and the toolkit's
`HitTestAlgorithm::BuildPickingRay`.  `W` is the state of the physics world and
scene; every method reads it and the mutating ones return the new one. -/
structure PhysicsImpl (F W : Type) where
  BuildPickingRay : W → Vector2 F → Vector3 F × Vector3 F
  HitTest : W → Vector2 F → Vector3 F → Vector3 F → HitResult F × W
  HighlightBody : W → Ptr → Bool → W
  ActivateBody : W → Ptr → Int × W
  AddPivotJoint : W → Ptr → Ptr → Vector3 F → Ptr × W
  TranslateToPhysicsSpace : W → Vector3 F → Vector3 F
  MoveMouseBody : W → Ptr → Vector3 F → W
  RestoreBodyState : W → Ptr → Int → W
  ReleaseConstraint : W → Ptr → W
  ToggleIntegrateState : W → W
  ToggleDebugState : W → W

/-- A joint that has been added is a joint: `AddPivotJoint` never returns `nullptr`. -/
def PhysicsImpl.JointsNonNull {F W : Type} (P : PhysicsImpl F W) : Prop :=
  ∀ (w : W) (a b : Ptr) (p : Vector3 F), (P.AddPivotJoint w a b p).1 ≠ nullptr

/-- The calls a handler issues, in program order, with their arguments and, where
the handler uses it, the value returned. -/
inductive Effect (F : Type)
  | BuildPickingRay (screenCoords : Vector2 F)
  | Lock
  | Unlock
  | HitTest (screenCoords : Vector2 F) (origin direction : Vector3 F) (result : HitResult F)
  | HighlightBody (body : Ptr) (highlight : Bool)
  | ActivateBody (body : Ptr) (oldState : Int)
  | AddPivotJoint (body1 body2 : Ptr) (localPivot : Vector3 F) (joint : Ptr)
  | TranslateToPhysicsSpace (vector : Vector3 F)
  | MoveMouseBody (body : Ptr) (position : Vector3 F)
  | RestoreBodyState (body : Ptr) (oldState : Int)
  | ReleaseConstraint (constraint : Ptr)
  | KeepRendering
  | Quit
  | ToggleIntegrateState
  | ToggleDebugState
  deriving DecidableEq, Repr

/-- The calls into `mPhysicsImpl` (its mutex included). -/
def Effect.isPhysicsOp {F : Type} : Effect F → Bool
  | .BuildPickingRay _ => false
  | .KeepRendering => false
  | .Quit => false
  | _ => true

/-- Is the call an `AddPivotJoint`. -/
def Effect.isAddPivotJoint {F : Type} : Effect F → Bool
  | .AddPivotJoint _ _ _ _ => true
  | _ => false

/-- Is the call a `HitTest`. -/
def Effect.isHitTest {F : Type} : Effect F → Bool
  | .HitTest _ _ _ _ => true
  | _ => false

/-- Is the call an `ActivateBody`. -/
def Effect.isActivateBody {F : Type} : Effect F → Bool
  | .ActivateBody _ _ => true
  | _ => false

/-- Is the call a `RestoreBodyState`. -/
def Effect.isRestoreBodyState {F : Type} : Effect F → Bool
  | .RestoreBodyState _ _ => true
  | _ => false

/-- Is the call a `ReleaseConstraint`. -/
def Effect.isReleaseConstraint {F : Type} : Effect F → Bool
  | .ReleaseConstraint _ => true
  | _ => false

/-- Is the call a `HighlightBody`. -/
def Effect.isHighlightBody {F : Type} : Effect F → Bool
  | .HighlightBody _ _ => true
  | _ => false

/-- The function-local static `state` of `OnTouched`. -/
inductive TouchState
  | None
  | MoveCameraXZ
  | MovePivot
  deriving DecidableEq, Repr

/-- The members of `PhysicsDemoController` the handlers read or write, together
with the function-local static `state` of `OnTouched`. -/
structure PhysicsDemoController where
  state : TouchState
  mMouseBody : Ptr
  mPickedBody : Ptr
  mPickedConstraint : Ptr
  mPickedSavedState : Int
  mCtrlDown : Bool
  mAltDown : Bool
  mShiftDown : Bool
  deriving DecidableEq, Repr

/-- The member initialisers: `state = None`, null picked body and constraint, saved
state `-1`, no modifier held; `mMouseBody` is what `OnInit` stored. -/
def PhysicsDemoController.initial (mouseBody : Ptr) : PhysicsDemoController :=
  { state := .None, mMouseBody := mouseBody, mPickedBody := nullptr,
    mPickedConstraint := nullptr, mPickedSavedState := -1,
    mCtrlDown := false, mAltDown := false, mShiftDown := false }

/-- What a handler leaves behind: the controller, the world, the calls issued. -/
structure Outcome (F W : Type) where
  ctrl : PhysicsDemoController
  world : W
  trace : List (Effect F)

/-- The `case None:` branch of the switch in `OnTouched`. -/
def OnTouched.caseNone {F W : Type} (P : PhysicsImpl F W) (c : PhysicsDemoController) (w : W)
    (touch : TouchEvent F) (origin direction : Vector3 F) : Outcome F W :=
  let screenCoords := touch.GetScreenPosition
  if touch.GetState = PointState.STARTED then
    if c.mCtrlDown then
      { ctrl := { c with state := .MoveCameraXZ }, world := w, trace := [] }
    else
      let c1 := { c with state := TouchState.MovePivot }
      let hit := P.HitTest w screenCoords origin direction
      let body := hit.1.body
      let localPivot := hit.1.localPivot
      let w1 := hit.2
      if body ≠ nullptr then
        let c2 := { c1 with mPickedBody := body }
        let w2 := P.HighlightBody w1 c2.mPickedBody true
        let act := P.ActivateBody w2 c2.mPickedBody
        let c3 := { c2 with mPickedSavedState := act.1 }
        let joint := P.AddPivotJoint act.2 c3.mPickedBody c3.mMouseBody localPivot
        { ctrl := { c3 with mPickedConstraint := joint.1 }, world := joint.2,
          trace := [.Lock, .HitTest screenCoords origin direction hit.1,
                    .HighlightBody c2.mPickedBody true,
                    .ActivateBody c2.mPickedBody act.1,
                    .AddPivotJoint c3.mPickedBody c3.mMouseBody localPivot joint.1,
                    .Unlock] }
      else
        { ctrl := c1, world := w1,
          trace := [.Lock, .HitTest screenCoords origin direction hit.1, .Unlock] }
  else
    { ctrl := c, world := w, trace := [] }

/-- The `case MovePivot:` branch of the switch in `OnTouched`. -/
def OnTouched.caseMovePivot {F W : Type} [Zero F] (P : PhysicsImpl F W)
    (c : PhysicsDemoController) (w : W) (touch : TouchEvent F) : Outcome F W :=
  let screenCoords := touch.GetScreenPosition
  if touch.GetState = PointState.MOTION then
    if c.mPickedBody ≠ nullptr ∧ c.mPickedConstraint ≠ nullptr then
      if ¬ c.mShiftDown then
        let position := P.TranslateToPhysicsSpace w (Vector3.ofVector2 screenCoords)
        { ctrl := c, world := P.MoveMouseBody w c.mMouseBody position,
          trace := [.Lock, .TranslateToPhysicsSpace (Vector3.ofVector2 screenCoords),
                    .MoveMouseBody c.mMouseBody position, .Unlock] }
      else
        { ctrl := c, world := w, trace := [] }
    else
      { ctrl := c, world := w, trace := [] }
  else if touch.GetState = PointState.FINISHED ∨ touch.GetState = PointState.INTERRUPTED then
    if c.mPickedConstraint ≠ nullptr then
      let w1 := P.HighlightBody w c.mPickedBody false
      let w2 := P.RestoreBodyState w1 c.mPickedBody c.mPickedSavedState
      let w3 := P.ReleaseConstraint w2 c.mPickedConstraint
      { ctrl := { c with mPickedConstraint := nullptr, mPickedBody := nullptr,
                         state := .None },
        world := w3,
        trace := [.HighlightBody c.mPickedBody false, .Lock,
                  .RestoreBodyState c.mPickedBody c.mPickedSavedState,
                  .ReleaseConstraint c.mPickedConstraint, .Unlock] }
    else
      { ctrl := { c with state := .None }, world := w, trace := [] }
  else
    { ctrl := c, world := w, trace := [] }

/-- The `case MoveCameraXZ:` branch of the switch in `OnTouched`. -/
def OnTouched.caseMoveCameraXZ {F W : Type} (c : PhysicsDemoController) (w : W)
    (touch : TouchEvent F) : Outcome F W :=
  if touch.GetState = PointState.MOTION then
    { ctrl := c, world := w, trace := [] }
  else if touch.GetState = PointState.FINISHED ∨ touch.GetState = PointState.INTERRUPTED then
    { ctrl := { c with state := .None }, world := w, trace := [] }
  else
    { ctrl := c, world := w, trace := [] }

/-- The handler `PhysicsDemoController::OnTouched`: build the picking ray, run the switch on
`state`, ask for continued rendering. -/
def OnTouched {F W : Type} [Zero F] (P : PhysicsImpl F W) (c : PhysicsDemoController) (w : W)
    (touch : TouchEvent F) : Outcome F W :=
  let screenCoords := touch.GetScreenPosition
  let ray := P.BuildPickingRay w screenCoords
  let r : Outcome F W :=
    match c.state with
    | .None => OnTouched.caseNone P c w touch ray.1 ray.2
    | .MovePivot => OnTouched.caseMovePivot P c w touch
    | .MoveCameraXZ => OnTouched.caseMoveCameraXZ c w touch
  { r with trace := Effect.BuildPickingRay screenCoords :: r.trace ++ [Effect.KeepRendering] }

/-- The key codes of `namespace KeyModifier`.  `CONTROL_L` and `CONTROL_R` are
defined from `DevelKey::DALI_KEY_CONTROL_LEFT` and `DALI_KEY_CONTROL_RIGHT`, whose
values the toolkit's headers fix; they are taken as given. -/
structure KeyModifier where
  CONTROL_L : Int
  CONTROL_R : Int

/-- KeyModifier::SHIFT_L. -/
def KeyModifier.SHIFT_L : Int := 50
/-- KeyModifier::SHIFT_R. -/
def KeyModifier.SHIFT_R : Int := 62
/-- KeyModifier::ALT_L. -/
def KeyModifier.ALT_L : Int := 64
/-- KeyModifier::ALT_R. -/
def KeyModifier.ALT_R : Int := 108

/-- The handler `PhysicsDemoController::OnKeyEv`: the two switches on the key code, one for
key-down and one for key-up. -/
def OnKeyEv {F W : Type} (K : KeyModifier) (P : PhysicsImpl F W) (c : PhysicsDemoController)
    (w : W) (event : KeyEvent) : Outcome F W :=
  let code := event.GetKeyCode
  match event.GetState with
  | .DOWN =>
    if code = K.CONTROL_L ∨ code = K.CONTROL_R then
      { ctrl := { c with mCtrlDown := true }, world := w, trace := [] }
    else if code = KeyModifier.ALT_L ∨ code = KeyModifier.ALT_R then
      { ctrl := { c with mAltDown := true }, world := w, trace := [] }
    else if code = KeyModifier.SHIFT_L ∨ code = KeyModifier.SHIFT_R then
      { ctrl := { c with mShiftDown := true }, world := w, trace := [] }
    else if event.isEscapeOrBack then
      { ctrl := c, world := w, trace := [.Quit] }
    else if event.GetKeyString = " " then
      { ctrl := c, world := P.ToggleIntegrateState w, trace := [.ToggleIntegrateState] }
    else if event.GetKeyString = "m" then
      { ctrl := c, world := P.ToggleDebugState w, trace := [.ToggleDebugState] }
    else
      { ctrl := c, world := w, trace := [] }
  | .UP =>
    if code = K.CONTROL_L ∨ code = K.CONTROL_R then
      { ctrl := { c with mCtrlDown := false }, world := w, trace := [] }
    else if code = KeyModifier.ALT_L ∨ code = KeyModifier.ALT_R then
      { ctrl := { c with mAltDown := false }, world := w, trace := [] }
    else if code = KeyModifier.SHIFT_L ∨ code = KeyModifier.SHIFT_R then
      { ctrl := { c with mShiftDown := false }, world := w, trace := [] }
    else
      { ctrl := c, world := w, trace := [] }

/-- What happens to the controller between two returns to the event loop: a touch
event, a key event, or the physics engine integrating on its own (which leaves
the world in some state `w` and does not touch the controller). -/
inductive Event (F W : Type)
  | touch (t : TouchEvent F)
  | key (k : KeyEvent)
  | integrate (w : W)

/-- Dispatch of one event to its handler. -/
def handle {F W : Type} [Zero F] (K : KeyModifier) (P : PhysicsImpl F W)
    (c : PhysicsDemoController) (w : W) : Event F W → Outcome F W
  | .touch t => OnTouched P c w t
  | .key k => OnKeyEv K P c w k
  | .integrate w1 => { ctrl := c, world := w1, trace := [] }

/-- A sequence of events, handled one after the other; the traces are concatenated. -/
def run {F W : Type} [Zero F] (K : KeyModifier) (P : PhysicsImpl F W)
    (c : PhysicsDemoController) (w : W) : List (Event F W) → Outcome F W
  | [] => { ctrl := c, world := w, trace := [] }
  | e :: es =>
    let r := handle K P c w e
    let rs := run K P r.ctrl r.world es
    { rs with trace := r.trace ++ rs.trace }

/-- Is the event a pointer-finish or pointer-interrupted touch event. -/
def Event.isRelease {F W : Type} : Event F W → Bool
  | .touch t => t.isRelease
  | _ => false

/-- The states the controller can be in: the initial one and those a handler
leaves, whatever the world is when the handler runs. -/
inductive Reachable {F W : Type} [Zero F] (K : KeyModifier) (P : PhysicsImpl F W)
    (mouseBody : Ptr) : PhysicsDemoController → Prop
  | init : Reachable K P mouseBody (PhysicsDemoController.initial mouseBody)
  | step (c : PhysicsDemoController) (w : W) (e : Event F W) :
      Reachable K P mouseBody c → Reachable K P mouseBody (handle K P c w e).ctrl

/-- The invariant behind the pick bookkeeping: the picked body and the picked
constraint are null together, and a picked constraint is held in MovePivot only. -/
def PickInvariant (c : PhysicsDemoController) : Prop :=
  (c.mPickedBody ≠ nullptr ↔ c.mPickedConstraint ≠ nullptr) ∧
  (c.mPickedConstraint ≠ nullptr → c.state = TouchState.MovePivot)

/-! ### A small concrete physics world, for evaluating the handlers -/

/-- A world in which every body is asleep or awake as a whole and joints are
numbered from 1: the sleeping flag, the number of joints ever added, the joints
in place, the highlighted bodies, the last mouse-body position. -/
structure ToyWorld where
  sleeping : Bool
  jointsMade : Nat
  joints : List Ptr
  highlighted : List Ptr
  mouseAt : Vector3 Int
  deriving DecidableEq, Repr

/-- The toy physics: a touch at a point with positive `x` hits the body whose
address is `x`, at local pivot `(0, y, 0)`; any other touch hits nothing. -/
def toyPhysics : PhysicsImpl Int ToyWorld where
  BuildPickingRay := fun _ s => (⟨s.x, s.y, 0⟩, ⟨0, 0, 1⟩)
  HitTest := fun w s _ _ =>
    (if 0 < s.x then ⟨s.x.toNat, ⟨0, s.y, 0⟩, 1⟩ else ⟨nullptr, ⟨0, 0, 0⟩, 0⟩, w)
  HighlightBody := fun w b h =>
    if h then { w with highlighted := b :: w.highlighted }
    else { w with highlighted := w.highlighted.erase b }
  ActivateBody := fun w _ => (if w.sleeping then 1 else 0, { w with sleeping := false })
  AddPivotJoint := fun w _ _ _ =>
    (w.jointsMade + 1, { w with jointsMade := w.jointsMade + 1,
                                joints := (w.jointsMade + 1) :: w.joints })
  TranslateToPhysicsSpace := fun _ v => v
  MoveMouseBody := fun w _ p => { w with mouseAt := p }
  RestoreBodyState := fun w _ s => if s ≠ 0 then { w with sleeping := true } else w
  ReleaseConstraint := fun w j => { w with joints := w.joints.erase j }
  ToggleIntegrateState := fun w => w
  ToggleDebugState := fun w => w

/-- The toy world at start: everything asleep, nothing picked. -/
def toyWorld : ToyWorld :=
  { sleeping := true, jointsMade := 0, joints := [], highlighted := [], mouseAt := ⟨0, 0, 0⟩ }

/-- Key codes for the toy runs. -/
def toyKeys : KeyModifier := { CONTROL_L := 37, CONTROL_R := 105 }

/-- The toy controller dragging body 7 by joint 1. -/
def toyDragging : PhysicsDemoController :=
  { PhysicsDemoController.initial 99 with
    state := .MovePivot, mPickedBody := 7, mPickedConstraint := 1, mPickedSavedState := 1 }

/-- The toy world while body 7 is dragged by joint 1: awake, the joint in place, the
body highlighted. -/
def toyDraggingWorld : ToyWorld :=
  { sleeping := false, jointsMade := 1, joints := [1], highlighted := [7],
    mouseAt := ⟨0, 0, 0⟩ }

/-- A touch event at `(x, y)`. -/
def touchAt (s : PointState) (x y : Int) : TouchEvent Int :=
  { GetState := s, GetScreenPosition := ⟨x, y⟩ }

end PhysicsDemo

namespace Dali

/-- Dali::Property::Key: an index key or a string key. -/
inductive Property.Key
  | INDEX (index : Int)
  | STRING (name : String)
  deriving DecidableEq, Repr

/-- Dali::Property::Value: a value of one of the property types. -/
inductive Property.Value (F : Type)
  | NONE
  | BOOLEAN (b : Bool)
  | FLOAT (f : F)
  | INTEGER (i : Int)
  | VECTOR2 (v : Vector2 F)
  | VECTOR3 (v : Vector3 F)
  | VECTOR4 (x y z w : F)
  | MATRIX3 (m : List F)
  | MATRIX (m : List F)
  | RECTANGLE (x y width height : Int)
  | ROTATION (angle : F) (axis : Vector3 F)
  | STRING (s : String)
  | ARRAY (a : List (Property.Value F))
  | MAP (m : List (Property.Key × Property.Value F))
  | EXTENTS (start stop top bottom : Nat)

/-- Dali::Property::Array. -/
abbrev Property.Array (F : Type) := List (Property.Value F)

/-- Dali::Property::Map, in insertion order. -/
abbrev Property.Map (F : Type) := List (Property.Key × Property.Value F)

/-- The method `Property::Value::GetMap()`: the map, or a null pointer when the value is
not a map. -/
def Property.Value.GetMap {F : Type} : Property.Value F → Option (Property.Map F)
  | .MAP m => some m
  | _ => none

/-- The method `Property::Value::GetArray()`: the array, or a null pointer when the value is not
an array. -/
def Property.Value.GetArray {F : Type} : Property.Value F → Option (Property.Array F)
  | .ARRAY a => some a
  | _ => none

/-- The integer a BOOLEAN or INTEGER value holds (the toolkit's integer types). -/
def Property.Value.integerValue {F : Type} : Property.Value F → Option Int
  | .BOOLEAN b => some (if b then 1 else 0)
  | .INTEGER i => some i
  | _ => none

/-- The method `Property::Value::Get<std::string>()`.  The toolkit's `Get<T>()` is best effort: it
returns a value-initialised `T` when the value does not convert to `T`. -/
def Property.Value.GetString {F : Type} : Property.Value F → String
  | .STRING s => s
  | _ => ""

/-- The method `Property::Value::Get<float>()`: the float, an integer type converted, else `0`. -/
def Property.Value.GetFloat {F : Type} [Zero F] [IntCast F] (v : Property.Value F) : F :=
  match v with
  | .FLOAT f => f
  | _ =>
    match v.integerValue with
    | some i => (i : F)
    | none => 0

/-- The method `Property::Value::Get<bool>()`: an integer type read as a bool, else `false`. -/
def Property.Value.GetBool {F : Type} (v : Property.Value F) : Bool :=
  match v.integerValue with
  | some i => decide (i ≠ 0)
  | none => false

/-- A Dali::Animation handle: `none` is the empty handle, for which `if( mAnimation )`
fails. -/
abbrev Animation := Option Nat

/-- A Toolkit::Visual::Base handle: `none` is the empty handle. -/
abbrev Visual := Option Nat

/-- Toolkit::TransitionData, by the animators it describes.  A handle that was never
assigned describes none. -/
structure TransitionData (F : Type) where
  animators : List (Property.Map F)

/-- The method `TransitionData::Count()`. -/
def TransitionData.Count {F : Type} (d : TransitionData F) : Nat :=
  d.animators.length

/-- The factory `TransitionData::New( const Property::Array& )`: one animator for each map of the
array. -/
def TransitionData.New {F : Type} (array : Property.Array F) : TransitionData F :=
  ⟨array.filterMap Property.Value.GetMap⟩

/-- The factory `TransitionData::New( const Property::Map& )`: the one animator the map
describes. -/
def TransitionData.NewFromMap {F : Type} (map : Property.Map F) : TransitionData F :=
  ⟨[map]⟩

end Dali

namespace Demo

open Dali

/-- The property indices of `Demo::ImageChannelControl::Property` (declared in the
control's header), and any other index. -/
inductive PropertyIndex
  | RESOURCE_URL
  | RED_CHANNEL
  | GREEN_CHANNEL
  | BLUE_CHANNEL
  | VISIBILITY
  | ENABLE_VISIBILITY_TRANSITION
  | DISABLE_VISIBILITY_TRANSITION
  | IMAGE_VISUAL
  | OTHER (index : Int)
  deriving DecidableEq, Repr

/-- The calls the control issues, in program order, with their arguments and, where
the control uses it, the value returned. -/
inductive Effect (F : Type)
  | printf (visibility : Bool)
  | Stop (animation : Animation)
  | Disconnect (animation : Animation)
  | Connect (animation : Animation)
  | Play (animation : Animation)
  | CreateTransition (data : TransitionData F) (animation : Animation)
  | CreateVisual (properties : Property.Map F) (visual : Visual)
  | RegisterVisual (index : PropertyIndex) (visual : Visual)
  | SetName (visual : Visual) (name : String)
  | RelayoutRequest
  | SetProperty (index : Int) (value : Vector3 F)

/-- Is the call a `Play`. -/
def Effect.isPlay {F : Type} : Effect F → Bool
  | .Play _ => true
  | _ => false

/-- The toolkit the control is built on.  `T` is the toolkit's state (scene, stage,
handles); `CreateVisual` and `CreateTransition` return a handle, which may be
empty; `perform` is what a call without a result does to the state.  The
remaining fields are the constants the control reads from the toolkit's headers
and the string `DALI_COMPOSE_SHADER` makes of the fragment shader. -/
structure Toolkit (F T : Type) where
  CreateVisual : T → Property.Map F → Visual × T
  CreateTransition : T → TransitionData F → Animation × T
  perform : T → Effect F → T
  VISUAL_TYPE : Int
  VISUAL_SHADER : Int
  SHADER_FRAGMENT_SHADER : Int
  IMAGE_VISUAL_URL : Int
  VISUAL_IMAGE : Int
  FRAGMENT_SHADER : String

/-- The members of `Internal::ImageChannelControl`. -/
structure ImageChannelControl (F : Type) where
  mUrl : String
  mVisual : Visual
  mChannels : Vector3 F
  mEnableVisibilityTransition : TransitionData F
  mDisableVisibilityTransition : TransitionData F
  mAnimation : Animation
  mChannelIndex : Int
  mVisibility : Bool
  mTargetVisibility : Bool

/-- The constructor: channels `(1, 1, 1)`, channel index `Property::INVALID_INDEX`,
visible, target visible, empty handles. -/
def ImageChannelControl.ctor {F : Type} [One F] : ImageChannelControl F :=
  { mUrl := "", mVisual := none, mChannels := ⟨1, 1, 1⟩,
    mEnableVisibilityTransition := ⟨[]⟩, mDisableVisibilityTransition := ⟨[]⟩,
    mAnimation := none, mChannelIndex := -1, mVisibility := true, mTargetVisibility := true }

/-- What a method leaves behind: the members, the toolkit state, the calls issued. -/
structure Outcome (F T : Type) where
  impl : ImageChannelControl F
  world : T
  trace : List (Effect F)

/-- Issue a call without a result: the toolkit state moves on and the call is logged. -/
def Outcome.call {F T : Type} (K : Toolkit F T) (r : Outcome F T) (e : Effect F) :
    Outcome F T :=
  { r with world := K.perform r.world e, trace := r.trace ++ [e] }

/-- The callback `ImageChannelControl::OnStateChangeAnimationFinished`. -/
def OnStateChangeAnimationFinished {F : Type} (c : ImageChannelControl F) :
    ImageChannelControl F :=
  { c with mVisibility := c.mTargetVisibility }

/-- The assignment `mAnimation = CreateTransition( data )` inside `SetVisibility`. -/
def SetVisibility.create {F T : Type} (K : Toolkit F T) (r : Outcome F T)
    (data : TransitionData F) : Outcome F T :=
  let a := K.CreateTransition r.world data
  { impl := { r.impl with mAnimation := a.1 }, world := a.2,
    trace := r.trace ++ [.CreateTransition data a.1] }

/-- The method `ImageChannelControl::SetVisibility`. -/
def SetVisibility {F T : Type} (K : Toolkit F T) (c : ImageChannelControl F) (t : T)
    (visibility : Bool) : Outcome F T :=
  let r0 : Outcome F T := Outcome.call K { impl := c, world := t, trace := [] }
    (.printf visibility)
  -- if( mAnimation ) { Stop; Disconnect; OnStateChangeAnimationFinished }
  let r1 : Outcome F T :=
    if r0.impl.mAnimation.isSome then
      let s := Outcome.call K (Outcome.call K r0 (.Stop r0.impl.mAnimation))
        (.Disconnect r0.impl.mAnimation)
      { s with impl := OnStateChangeAnimationFinished s.impl }
    else r0
  -- if( mVisibility != visibility ) { ... CreateTransition ... }
  let r2 : Outcome F T :=
    if r1.impl.mVisibility ≠ visibility then
      if r1.impl.mVisibility then
        if r1.impl.mDisableVisibilityTransition.Count > 0 then
          SetVisibility.create K r1 r1.impl.mDisableVisibilityTransition
        else r1
      else
        if r1.impl.mEnableVisibilityTransition.Count > 0 then
          SetVisibility.create K r1 r1.impl.mEnableVisibilityTransition
        else r1
    else r1
  -- if( mAnimation ) { Connect; Play; mTargetVisibility } else { mVisibility }
  if r2.impl.mAnimation.isSome then
    let s := Outcome.call K (Outcome.call K r2 (.Connect r2.impl.mAnimation))
      (.Play r2.impl.mAnimation)
    { s with impl := { s.impl with mTargetVisibility := visibility } }
  else
    { r2 with impl := { r2.impl with mVisibility := visibility } }

/-- The method `ImageChannelControl::SetImage`. -/
def SetImage {F T : Type} (K : Toolkit F T) (c : ImageChannelControl F) (t : T)
    (url : String) : Outcome F T :=
  let c1 := { c with mUrl := url }
  let shader : Property.Map F :=
    [(.INDEX K.SHADER_FRAGMENT_SHADER, .STRING K.FRAGMENT_SHADER)]
  let properties : Property.Map F :=
    [(.INDEX K.VISUAL_TYPE, .INTEGER K.VISUAL_IMAGE),
     (.INDEX K.VISUAL_SHADER, .MAP shader),
     (.INDEX K.IMAGE_VISUAL_URL, .STRING url)]
  let v := K.CreateVisual t properties
  let c2 := { c1 with mVisual := v.1 }
  let r : Outcome F T := { impl := c2, world := v.2, trace := [.CreateVisual properties v.1] }
  Outcome.call K (Outcome.call K (Outcome.call K r
    (.RegisterVisual .IMAGE_VISUAL c2.mVisual)) (.SetName c2.mVisual "imageVisual"))
    .RelayoutRequest

/-- The static method `ImageChannelControl::SetProperty`, for an `object` that is an
ImageChannelControl (the down-cast succeeds).  The two tests on `GetType()` of
the transition cases are the match on the value's constructor. -/
def SetProperty {F T : Type} [Zero F] [IntCast F] (K : Toolkit F T)
    (impl : ImageChannelControl F) (t : T) (index : PropertyIndex)
    (value : Property.Value F) : Outcome F T :=
  let unchanged : Outcome F T := { impl := impl, world := t, trace := [] }
  match index with
  | .RESOURCE_URL => SetImage K impl t value.GetString
  | .IMAGE_VISUAL =>
    match value.GetMap with
    | some map =>
      let v := K.CreateVisual t map
      let r : Outcome F T :=
        { impl := { impl with mVisual := v.1 }, world := v.2, trace := [.CreateVisual map v.1] }
      Outcome.call K r (.RegisterVisual .IMAGE_VISUAL v.1)
    | none => unchanged
  | .VISIBILITY => SetVisibility K impl t value.GetBool
  | .ENABLE_VISIBILITY_TRANSITION =>
    match value with
    | .ARRAY array =>
      { unchanged with impl := { impl with mEnableVisibilityTransition := .New array } }
    | .MAP map =>
      { unchanged with impl := { impl with mEnableVisibilityTransition := .NewFromMap map } }
    | _ => unchanged
  | .DISABLE_VISIBILITY_TRANSITION =>
    match value with
    | .ARRAY array =>
      { unchanged with impl := { impl with mDisableVisibilityTransition := .New array } }
    | .MAP map =>
      { unchanged with impl := { impl with mDisableVisibilityTransition := .NewFromMap map } }
    | _ => unchanged
  | .RED_CHANNEL =>
    let c1 := { impl with mChannels := { impl.mChannels with x := value.GetFloat } }
    Outcome.call K { unchanged with impl := c1 } (.SetProperty c1.mChannelIndex c1.mChannels)
  | .GREEN_CHANNEL =>
    let c1 := { impl with mChannels := { impl.mChannels with y := value.GetFloat } }
    Outcome.call K { unchanged with impl := c1 } (.SetProperty c1.mChannelIndex c1.mChannels)
  | .BLUE_CHANNEL =>
    let c1 := { impl with mChannels := { impl.mChannels with z := value.GetFloat } }
    Outcome.call K { unchanged with impl := c1 } (.SetProperty c1.mChannelIndex c1.mChannels)
  | .OTHER _ => unchanged

/-- The static method `ImageChannelControl::GetProperty`, for an `object` that is an
ImageChannelControl. -/
def GetProperty {F : Type} (impl : ImageChannelControl F) (propertyIndex : PropertyIndex) :
    Property.Value F :=
  match propertyIndex with
  | .RED_CHANNEL => .FLOAT impl.mChannels.x
  | .GREEN_CHANNEL => .FLOAT impl.mChannels.y
  | .BLUE_CHANNEL => .FLOAT impl.mChannels.z
  | .VISIBILITY => .BOOLEAN impl.mVisibility
  | _ => .NONE

/-- What the application and the toolkit do to the control: set a property, or
deliver the finished signal of the animation. -/
inductive Step (F : Type)
  | SetProperty (index : PropertyIndex) (value : Property.Value F)
  | AnimationFinished

/-- One step on the control. -/
def step {F T : Type} [Zero F] [IntCast F] (K : Toolkit F T) (c : ImageChannelControl F)
    (t : T) : Step F → Outcome F T
  | .SetProperty index value => SetProperty K c t index value
  | .AnimationFinished =>
    { impl := OnStateChangeAnimationFinished c, world := t, trace := [] }

/-- A sequence of steps, one after the other; the traces are concatenated. -/
def steps {F T : Type} [Zero F] [IntCast F] (K : Toolkit F T) (c : ImageChannelControl F)
    (t : T) : List (Step F) → Outcome F T
  | [] => { impl := c, world := t, trace := [] }
  | s :: ss =>
    let r := step K c t s
    let rs := steps K r.impl r.world ss
    { rs with trace := r.trace ++ rs.trace }

/-! ### A small concrete toolkit, for evaluating the control -/

/-- A toolkit that numbers the handles it creates from 1; its state is the number of
handles created so far. -/
def toyToolkit : Toolkit Int Nat where
  CreateVisual := fun t _ => (some (t + 1), t + 1)
  CreateTransition := fun t _ => (some (t + 1), t + 1)
  perform := fun t _ => t
  VISUAL_TYPE := 0
  VISUAL_SHADER := 1
  SHADER_FRAGMENT_SHADER := 1
  IMAGE_VISUAL_URL := 2
  VISUAL_IMAGE := 2
  FRAGMENT_SHADER := "uChannels"

/-- A toolkit whose `CreateTransition` depends on its state: it returns an animation
only in state 0 (say, while the control is staged) and an empty handle in every
other state; creating moves the state on. -/
def toyStagedToolkit : Toolkit Int Nat where
  CreateVisual := fun t _ => (some (t + 1), t + 1)
  CreateTransition := fun t _ => (if t = 0 then some 1 else none, t + 1)
  perform := fun t _ => t
  VISUAL_TYPE := 0
  VISUAL_SHADER := 1
  SHADER_FRAGMENT_SHADER := 1
  IMAGE_VISUAL_URL := 2
  VISUAL_IMAGE := 2
  FRAGMENT_SHADER := "uChannels"

/-- A one-animator transition description: the array of one map. -/
def toyTransition : Property.Value Int :=
  .ARRAY [.MAP [(.STRING "target", .STRING "imageVisual")]]

/-- Steps from the constructed control to a state with both transitions empty and an
animation handle left over: the enable transition is set to the empty array, the
disable transition to one animator, the control is hidden (the animation plays
and finishes), and the disable transition is set to the empty array. -/
def staleAnimationRun : List (Step Int) :=
  [.SetProperty .ENABLE_VISIBILITY_TRANSITION (.ARRAY []),
   .SetProperty .DISABLE_VISIBILITY_TRANSITION toyTransition,
   .SetProperty .VISIBILITY (.BOOLEAN false),
   .AnimationFinished,
   .SetProperty .DISABLE_VISIBILITY_TRANSITION (.ARRAY [])]

/-- Steps from the constructed control to a state in the middle of hiding: the
disable transition is set to one animator and the control is hidden; the
animation has not finished. -/
def hidingRun : List (Step Int) :=
  [.SetProperty .DISABLE_VISIBILITY_TRANSITION toyTransition,
   .SetProperty .VISIBILITY (.BOOLEAN false)]

/-- The constructed control with a one-animator disable transition. -/
def toyControl : ImageChannelControl Int :=
  { (ImageChannelControl.ctor : ImageChannelControl Int) with
    mDisableVisibilityTransition := .New [.MAP [(.STRING "target", .STRING "imageVisual")]] }

end Demo

namespace PhysicsDemo

open Dali

/-- Is the call a `MoveMouseBody`. -/
def Effect.isMoveMouseBody {F : Type} : Effect F → Bool
  | .MoveMouseBody _ _ => true
  | _ => false

/-- The reads and writes of the physics state shared with the integration step:
`HitTest`, `ActivateBody`, `RestoreBodyState`, `AddPivotJoint`,
`ReleaseConstraint`, `MoveMouseBody`. -/
def Effect.isSharedPhysicsAccess {F : Type} : Effect F → Bool
  | .HitTest _ _ _ _ => true
  | .ActivateBody _ _ => true
  | .RestoreBodyState _ _ => true
  | .AddPivotJoint _ _ _ _ => true
  | .ReleaseConstraint _ => true
  | .MoveMouseBody _ _ => true
  | _ => false

/-- Whether the handler holds `mPhysicsImpl.mMutex` after a call, given whether it
held the mutex before: the scoped lock takes it, the end of the scope gives it
back. -/
def Effect.heldAfter {F : Type} (held : Bool) : Effect F → Bool
  | .Lock => true
  | .Unlock => false
  | _ => held

/-- A trace keeps the lock discipline, starting with the mutex held or not: every
access to the shared physics state is made with the mutex held. -/
def lockDiscipline {F : Type} (held : Bool) : List (Effect F) → Bool
  | [] => true
  | e :: es => (!e.isSharedPhysicsAccess || held) && lockDiscipline (e.heldAfter held) es

/-- Whether the mutex is held at the end of a trace. -/
def heldAtEnd {F : Type} (held : Bool) : List (Effect F) → Bool
  | [] => held
  | e :: es => heldAtEnd (e.heldAfter held) es

/-- Dali::Window::WindowSize, a pair of `uint16_t`: width and height, each below
`65536`. -/
structure WindowSize where
  GetWidth : Nat
  GetHeight : Nat
  deriving DecidableEq, Repr

/-- The largest value of a C++ `int` (32 bits). -/
def INT_MAX : Int := 2147483647

/-- The smallest value of a C++ `int` (32 bits). -/
def INT_MIN : Int := -2147483648

/-- The result of an `int` operation whose mathematical value is `x`: `x` when an
`int` can hold it; otherwise the operation overflows, which is undefined
behaviour, and there is no result. -/
def intResult (x : Int) : Option Int :=
  if INT_MIN ≤ x ∧ x ≤ INT_MAX then some x else none

/-- The expression `10 + windowSize.GetWidth() * windowSize.GetHeight() / 20000` of
`OnInit`: both operands of the product are promoted to `int`, the division
truncates towards zero, and the product and the sum are `int` operations. -/
def numBalls (windowSize : WindowSize) : Option Int :=
  (intResult ((windowSize.GetWidth : Int) * (windowSize.GetHeight : Int))).bind
    fun product => intResult (10 + Int.tdiv product 20000)

/-- The calls `OnInit` issues, in program order. -/
inductive InitEffect
  | ConnectResize
  | ConnectKeyEvent
  | KeepRendering
  | SetBackgroundColor
  | Initialize
  | ConnectTouched
  | AddPhysicsRoot
  | CreateBall
  | AddMouseBody (mouseBody : Ptr)
  deriving DecidableEq, Repr

/-- Is the call a `CreateBall`. -/
def InitEffect.isCreateBall : InitEffect → Bool
  | .CreateBall => true
  | _ => false

/-- The handler `PhysicsDemoController::OnInit`, for a window of the given size;
`mouseBody` is what `AddMouseBody` returns.  The loop
`for(int i = 0; i < numBalls; ++i) CreateBall();` runs once for each `i` from `0`
below `numBalls`, that is `numBalls.toNat` times.  Where the ball count has no
defined value the handler has no defined outcome. -/
def OnInit (windowSize : WindowSize) (c : PhysicsDemoController) (mouseBody : Ptr) :
    Option (PhysicsDemoController × List InitEffect) :=
  (numBalls windowSize).map fun n =>
    ({ c with mMouseBody := mouseBody },
     [.ConnectResize, .ConnectKeyEvent, .KeepRendering, .SetBackgroundColor, .Initialize,
      .ConnectTouched, .AddPhysicsRoot]
     ++ List.replicate n.toNat .CreateBall
     ++ [.AddMouseBody mouseBody])

end PhysicsDemo

namespace PhysicsDemo

open Dali

/-! ### Frame lemmas for the handlers -/

/-- The key handler writes the modifier flags only. -/
theorem onKeyEv_frame {F W : Type} (K : KeyModifier) (P : PhysicsImpl F W)
    (c : PhysicsDemoController) (w : W) (k : KeyEvent) :
    (OnKeyEv K P c w k).ctrl.state = c.state ∧
    (OnKeyEv K P c w k).ctrl.mMouseBody = c.mMouseBody ∧
    (OnKeyEv K P c w k).ctrl.mPickedBody = c.mPickedBody ∧
    (OnKeyEv K P c w k).ctrl.mPickedConstraint = c.mPickedConstraint ∧
    (OnKeyEv K P c w k).ctrl.mPickedSavedState = c.mPickedSavedState := by
  unfold OnKeyEv
  cases k.GetState <;> simp only <;> split_ifs <;> simp

/-- A touch event that is not a release, received outside Idle, leaves the
controller as it is. -/
theorem onTouched_busy_no_release {F W : Type} [Zero F] (P : PhysicsImpl F W)
    (c : PhysicsDemoController) (w : W) (t : TouchEvent F)
    (hBusy : c.state ≠ TouchState.None) (hRel : t.isRelease = false) :
    (OnTouched P c w t).ctrl = c := by
  simp only [TouchEvent.isRelease, decide_eq_false_iff_not] at hRel
  unfold OnTouched
  cases hs : c.state with
  | None => exact absurd hs hBusy
  | MovePivot =>
    simp only [OnTouched.caseMovePivot]
    split_ifs <;> simp_all
  | MoveCameraXZ =>
    simp only [OnTouched.caseMoveCameraXZ]
    split_ifs <;> simp_all

/-- Events other than a release, received outside Idle, leave the interaction state,
the mouse body, the picked body, the picked constraint and the saved activation
state as they are. -/
theorem run_busy_no_release {F W : Type} [Zero F] (K : KeyModifier) (P : PhysicsImpl F W)
    (es : List (Event F W)) (c : PhysicsDemoController) (w : W)
    (hBusy : c.state ≠ TouchState.None) (hRel : ∀ e ∈ es, e.isRelease = false) :
    (run K P c w es).ctrl.state = c.state ∧
    (run K P c w es).ctrl.mMouseBody = c.mMouseBody ∧
    (run K P c w es).ctrl.mPickedBody = c.mPickedBody ∧
    (run K P c w es).ctrl.mPickedConstraint = c.mPickedConstraint ∧
    (run K P c w es).ctrl.mPickedSavedState = c.mPickedSavedState := by
  induction es generalizing c w with
  | nil => simp [run]
  | cons e es ih =>
    have hstep : (handle K P c w e).ctrl.state = c.state ∧
        (handle K P c w e).ctrl.mMouseBody = c.mMouseBody ∧
        (handle K P c w e).ctrl.mPickedBody = c.mPickedBody ∧
        (handle K P c w e).ctrl.mPickedConstraint = c.mPickedConstraint ∧
        (handle K P c w e).ctrl.mPickedSavedState = c.mPickedSavedState := by
      cases e with
      | touch t =>
        have ht : t.isRelease = false := hRel (Event.touch t) (List.mem_cons_self _ _)
        simp [handle, onTouched_busy_no_release P c w t hBusy ht]
      | key k => exact onKeyEv_frame K P c w k
      | integrate w1 => simp [handle]
    have hBusy1 : (handle K P c w e).ctrl.state ≠ TouchState.None := by
      rw [hstep.1]; exact hBusy
    have hrest := ih (handle K P c w e).ctrl (handle K P c w e).world hBusy1
      (fun e1 h1 => hRel e1 (List.mem_cons_of_mem _ h1))
    simp only [run]
    obtain ⟨h1, h2, h3, h4, h5⟩ := hrest
    obtain ⟨g1, g2, g3, g4, g5⟩ := hstep
    exact ⟨h1.trans g1, h2.trans g2, h3.trans g3, h4.trans g4, h5.trans g5⟩

/-- In Idle a release does nothing but build the ray and ask for rendering. -/
theorem onTouched_idle_release {F W : Type} [Zero F] (P : PhysicsImpl F W)
    (c : PhysicsDemoController) (w : W) (t : TouchEvent F)
    (hIdle : c.state = TouchState.None) (hRel : t.isRelease = true) :
    (OnTouched P c w t).ctrl = c ∧ (OnTouched P c w t).world = w ∧
    (OnTouched P c w t).trace
      = [Effect.BuildPickingRay t.GetScreenPosition, Effect.KeepRendering] := by
  simp only [TouchEvent.isRelease, decide_eq_true_eq] at hRel
  have hns : t.GetState ≠ PointState.STARTED := by
    rcases hRel with h | h <;> simp [h]
  simp [OnTouched, hIdle, OnTouched.caseNone, hns]

/-- In MoveCameraXZ a release resets the state and does nothing else but build the
ray and ask for rendering. -/
theorem onTouched_pan_release {F W : Type} [Zero F] (P : PhysicsImpl F W)
    (c : PhysicsDemoController) (w : W) (t : TouchEvent F)
    (hPan : c.state = TouchState.MoveCameraXZ) (hRel : t.isRelease = true) :
    (OnTouched P c w t).ctrl = { c with state := TouchState.None } ∧
    (OnTouched P c w t).world = w ∧
    (OnTouched P c w t).trace
      = [Effect.BuildPickingRay t.GetScreenPosition, Effect.KeepRendering] := by
  simp only [TouchEvent.isRelease, decide_eq_true_eq] at hRel
  have hnm : t.GetState ≠ PointState.MOTION := by
    rcases hRel with h | h <;> simp [h]
  simp [OnTouched, hPan, OnTouched.caseMoveCameraXZ, hnm, hRel]

/-- In MovePivot with a picked constraint, a release removes the highlight, restores
the saved activation state and releases the constraint under the lock, nulls
both references and resets the state. -/
theorem onTouched_drag_release {F W : Type} [Zero F] (P : PhysicsImpl F W)
    (c : PhysicsDemoController) (w : W) (t : TouchEvent F)
    (hDrag : c.state = TouchState.MovePivot) (hJoint : c.mPickedConstraint ≠ nullptr)
    (hRel : t.isRelease = true) :
    (OnTouched P c w t).ctrl
      = { c with mPickedConstraint := nullptr, mPickedBody := nullptr,
                 state := TouchState.None } ∧
    (OnTouched P c w t).world
      = P.ReleaseConstraint
          (P.RestoreBodyState (P.HighlightBody w c.mPickedBody false) c.mPickedBody
            c.mPickedSavedState)
          c.mPickedConstraint ∧
    (OnTouched P c w t).trace
      = [Effect.BuildPickingRay t.GetScreenPosition,
         Effect.HighlightBody c.mPickedBody false, Effect.Lock,
         Effect.RestoreBodyState c.mPickedBody c.mPickedSavedState,
         Effect.ReleaseConstraint c.mPickedConstraint, Effect.Unlock,
         Effect.KeepRendering] := by
  simp only [TouchEvent.isRelease, decide_eq_true_eq] at hRel
  have hnm : t.GetState ≠ PointState.MOTION := by
    rcases hRel with h | h <;> simp [h]
  simp only [OnTouched, hDrag, OnTouched.caseMovePivot, hnm, hRel, if_true, if_false]
  simp [hJoint]

/-- From Idle with Ctrl not held, a pointer-down that hits a body: the members
written, the world left and the calls issued, in full, in terms of what the
collaborator returns. -/
theorem onTouched_idle_hit {F W : Type} [Zero F] (P : PhysicsImpl F W)
    (c : PhysicsDemoController) (w : W) (touch : TouchEvent F)
    (hIdle : c.state = TouchState.None) (hCtrl : c.mCtrlDown = false)
    (hDown : touch.GetState = PointState.STARTED)
    (hHit : (P.HitTest w touch.GetScreenPosition (P.BuildPickingRay w touch.GetScreenPosition).1
      (P.BuildPickingRay w touch.GetScreenPosition).2).1.body ≠ nullptr) :
    let ray := P.BuildPickingRay w touch.GetScreenPosition
    let hit := P.HitTest w touch.GetScreenPosition ray.1 ray.2
    let act := P.ActivateBody (P.HighlightBody hit.2 hit.1.body true) hit.1.body
    let joint := P.AddPivotJoint act.2 hit.1.body c.mMouseBody hit.1.localPivot
    (OnTouched P c w touch).ctrl
      = { c with state := TouchState.MovePivot, mPickedBody := hit.1.body,
                 mPickedSavedState := act.1, mPickedConstraint := joint.1 } ∧
    (OnTouched P c w touch).world = joint.2 ∧
    (OnTouched P c w touch).trace
      = [Effect.BuildPickingRay touch.GetScreenPosition, Effect.Lock,
         Effect.HitTest touch.GetScreenPosition ray.1 ray.2 hit.1,
         Effect.HighlightBody hit.1.body true, Effect.ActivateBody hit.1.body act.1,
         Effect.AddPivotJoint hit.1.body c.mMouseBody hit.1.localPivot joint.1,
         Effect.Unlock, Effect.KeepRendering] := by
  simp only [OnTouched, hIdle, OnTouched.caseNone, hDown, hCtrl]
  simp [hHit]

/-- The touch handler keeps the pick invariant, provided added joints are not null. -/
theorem onTouched_pickInvariant {F W : Type} [Zero F] (P : PhysicsImpl F W)
    (hJoints : P.JointsNonNull) (c : PhysicsDemoController) (w : W) (t : TouchEvent F)
    (hInv : PickInvariant c) : PickInvariant (OnTouched P c w t).ctrl := by
  obtain ⟨hBoth, hState⟩ := hInv
  unfold PickInvariant OnTouched
  cases hs : c.state with
  | None =>
    have hj : c.mPickedConstraint = nullptr := by
      by_contra h
      have := hState h
      rw [hs] at this
      exact absurd this (by decide)
    have hb : c.mPickedBody = nullptr := by
      by_contra h
      exact (hBoth.mp h) hj
    simp only [OnTouched.caseNone]
    split_ifs with h1 h2 h3
    · simp [hj, hb]
    · have := hJoints
        (P.ActivateBody (P.HighlightBody (P.HitTest w t.GetScreenPosition
          (P.BuildPickingRay w t.GetScreenPosition).1
          (P.BuildPickingRay w t.GetScreenPosition).2).2
          (P.HitTest w t.GetScreenPosition (P.BuildPickingRay w t.GetScreenPosition).1
          (P.BuildPickingRay w t.GetScreenPosition).2).1.body true)
          (P.HitTest w t.GetScreenPosition (P.BuildPickingRay w t.GetScreenPosition).1
          (P.BuildPickingRay w t.GetScreenPosition).2).1.body).2
        (P.HitTest w t.GetScreenPosition (P.BuildPickingRay w t.GetScreenPosition).1
          (P.BuildPickingRay w t.GetScreenPosition).2).1.body c.mMouseBody
        (P.HitTest w t.GetScreenPosition (P.BuildPickingRay w t.GetScreenPosition).1
          (P.BuildPickingRay w t.GetScreenPosition).2).1.localPivot
      simp [h3, this]
    · simp [hj, hb]
    · simp [hj, hb]
  | MovePivot =>
    simp only [OnTouched.caseMovePivot]
    split_ifs with h1 h2 h3 h4 h5
    · exact ⟨hBoth, fun _ => hs⟩
    · exact ⟨hBoth, fun _ => hs⟩
    · exact ⟨hBoth, fun _ => hs⟩
    · simp
    · have hj : c.mPickedConstraint = nullptr := by simpa using h5
      have hb : c.mPickedBody = nullptr := by
        by_contra h
        exact (hBoth.mp h) hj
      simp [hj, hb]
    · exact ⟨hBoth, fun _ => hs⟩
  | MoveCameraXZ =>
    have hj : c.mPickedConstraint = nullptr := by
      by_contra h
      have := hState h
      rw [hs] at this
      exact absurd this (by decide)
    have hb : c.mPickedBody = nullptr := by
      by_contra h
      exact (hBoth.mp h) hj
    simp only [OnTouched.caseMoveCameraXZ]
    split_ifs <;> simp [hj, hb]

/-- Every handler keeps the pick invariant, provided added joints are not null. -/
theorem handle_pickInvariant {F W : Type} [Zero F] (K : KeyModifier) (P : PhysicsImpl F W)
    (hJoints : P.JointsNonNull) (c : PhysicsDemoController) (w : W) (e : Event F W)
    (hInv : PickInvariant c) : PickInvariant (handle K P c w e).ctrl := by
  cases e with
  | touch t => exact onTouched_pickInvariant P hJoints c w t hInv
  | key k =>
    obtain ⟨h1, _, h3, h4, _⟩ := onKeyEv_frame K P c w k
    unfold PickInvariant
    simp only [handle]
    rw [h1, h3, h4]
    exact hInv
  | integrate w1 => exact hInv

/-- Every reachable controller state satisfies the pick invariant. -/
theorem reachable_pickInvariant {F W : Type} [Zero F] (K : KeyModifier) (P : PhysicsImpl F W)
    (hJoints : P.JointsNonNull) (mouseBody : Ptr) (c : PhysicsDemoController)
    (h : Reachable K P mouseBody c) : PickInvariant c := by
  induction h with
  | init => simp [PickInvariant, PhysicsDemoController.initial]
  | step c w e _ ih => exact handle_pickInvariant K P hJoints c w e ih

/-- The toy physics numbers its joints from 1. -/
theorem toyPhysics_jointsNonNull : toyPhysics.JointsNonNull := by
  intro w a b p
  simp [toyPhysics]

/-- C1. From Idle with Ctrl not held, a pointer-down whose hit test returns a body
`b` (non-null) with local pivot `p` leaves the state at MovePivot, records `b` as
the picked body, highlights `b`, stores what `P.ActivateBody` returns for `b` as
the saved activation state, and issues exactly one `AddPivotJoint`, namely
`AddPivotJoint(b, mMouseBody, p)`, whose result, what `P.AddPivotJoint` returns,
becomes the picked constraint.  The calls are made in the order hit test,
highlight, activate, add joint, each on the world the one before left, and the
world after the handler is the one `P.AddPivotJoint` left. -/
theorem onTouched_pick {F W : Type} [Zero F] (P : PhysicsImpl F W)
    (c : PhysicsDemoController) (w : W) (touch : TouchEvent F) (b : Ptr) (p : Vector3 F)
    (hIdle : c.state = TouchState.None) (hCtrl : c.mCtrlDown = false)
    (hDown : touch.GetState = PointState.STARTED)
    (hBody : (P.HitTest w touch.GetScreenPosition (P.BuildPickingRay w touch.GetScreenPosition).1
      (P.BuildPickingRay w touch.GetScreenPosition).2).1.body = b)
    (hPivot : (P.HitTest w touch.GetScreenPosition (P.BuildPickingRay w touch.GetScreenPosition).1
      (P.BuildPickingRay w touch.GetScreenPosition).2).1.localPivot = p)
    (hHit : b ≠ nullptr) :
    let ray := P.BuildPickingRay w touch.GetScreenPosition
    let hit := P.HitTest w touch.GetScreenPosition ray.1 ray.2
    let act := P.ActivateBody (P.HighlightBody hit.2 b true) b
    let joint := P.AddPivotJoint act.2 b c.mMouseBody p
    let r := OnTouched P c w touch
    r.ctrl = { c with state := TouchState.MovePivot, mPickedBody := b,
                      mPickedSavedState := act.1, mPickedConstraint := joint.1 } ∧
    r.world = joint.2 ∧
    r.trace = [Effect.BuildPickingRay touch.GetScreenPosition, Effect.Lock,
      Effect.HitTest touch.GetScreenPosition ray.1 ray.2 hit.1,
      Effect.HighlightBody b true, Effect.ActivateBody b act.1,
      Effect.AddPivotJoint b c.mMouseBody p joint.1, Effect.Unlock, Effect.KeepRendering] ∧
    r.trace.filter Effect.isAddPivotJoint = [Effect.AddPivotJoint b c.mMouseBody p joint.1] := by
  subst hBody hPivot
  simp only [OnTouched, hIdle, OnTouched.caseNone, hDown, hCtrl]
  simp [hHit, Effect.isAddPivotJoint]

/-- C1 at a concrete input: in the toy world, asleep, a pointer-down at `(7, 3)` picks
body 7 with saved state 1 and joint 1, and leaves the world awake with body 7
highlighted and joint 1 in place. -/
theorem onTouched_pick_witness :
    (OnTouched toyPhysics (PhysicsDemoController.initial 99) toyWorld
      (touchAt .STARTED 7 3)).ctrl
      = { PhysicsDemoController.initial 99 with
          state := TouchState.MovePivot, mPickedBody := 7, mPickedSavedState := 1,
          mPickedConstraint := 1 } ∧
    (OnTouched toyPhysics (PhysicsDemoController.initial 99) toyWorld
      (touchAt .STARTED 7 3)).world
      = { sleeping := false, jointsMade := 1, joints := [1], highlighted := [7],
          mouseAt := ⟨0, 0, 0⟩ } ∧
    (OnTouched toyPhysics (PhysicsDemoController.initial 99) toyWorld
      (touchAt .STARTED 7 3)).trace
      = [Effect.BuildPickingRay ⟨7, 3⟩, Effect.Lock,
         Effect.HitTest ⟨7, 3⟩ ⟨7, 3, 0⟩ ⟨0, 0, 1⟩ ⟨7, ⟨0, 3, 0⟩, 1⟩,
         Effect.HighlightBody 7 true, Effect.ActivateBody 7 1,
         Effect.AddPivotJoint 7 99 ⟨0, 3, 0⟩ 1, Effect.Unlock, Effect.KeepRendering] ∧
    (OnTouched toyPhysics (PhysicsDemoController.initial 99) toyWorld
      (touchAt .STARTED 7 3)).trace.filter Effect.isAddPivotJoint
      = [Effect.AddPivotJoint 7 99 ⟨0, 3, 0⟩ 1] :=
  onTouched_pick toyPhysics (PhysicsDemoController.initial 99) toyWorld (touchAt .STARTED 7 3)
    7 ⟨0, 3, 0⟩ (by decide) (by decide) (by decide) (by decide) (by decide) (by decide)

/-- C2, the claim as stated fails: in the toy world the controller is Idle with Ctrl
not held, the pointer-down at `(0, 0)` hits no body, and the interaction state
after `OnTouched` is not Idle; the pointer-down at `(7, 3)` that follows, which
does hit body 7, picks nothing. -/
theorem onTouched_miss_leaves_idle_counterexample :
    (PhysicsDemoController.initial 99).state = TouchState.None ∧
    (PhysicsDemoController.initial 99).mCtrlDown = false ∧
    (toyPhysics.HitTest toyWorld (touchAt .STARTED 0 0).GetScreenPosition
      (toyPhysics.BuildPickingRay toyWorld (touchAt .STARTED 0 0).GetScreenPosition).1
      (toyPhysics.BuildPickingRay toyWorld (touchAt .STARTED 0 0).GetScreenPosition).2).1.body
      = nullptr ∧
    (OnTouched toyPhysics (PhysicsDemoController.initial 99) toyWorld
      (touchAt .STARTED 0 0)).ctrl.state ≠ TouchState.None ∧
    (run toyKeys toyPhysics (PhysicsDemoController.initial 99) toyWorld
      [.touch (touchAt .STARTED 0 0), .touch (touchAt .STARTED 7 3)]).ctrl.mPickedBody
      = nullptr := by
  decide

/-- C2, amended. From Idle with Ctrl not held, a pointer-down whose hit test returns
no body moves the interaction state to MovePivot with nothing picked: the picked
body, the picked constraint and the saved activation state are unchanged, the
only physics calls are the hit test under the lock, and no constraint is
created. -/
theorem onTouched_miss {F W : Type} [Zero F] (P : PhysicsImpl F W)
    (c : PhysicsDemoController) (w : W) (touch : TouchEvent F)
    (hIdle : c.state = TouchState.None) (hCtrl : c.mCtrlDown = false)
    (hDown : touch.GetState = PointState.STARTED)
    (hMiss : (P.HitTest w touch.GetScreenPosition (P.BuildPickingRay w touch.GetScreenPosition).1
      (P.BuildPickingRay w touch.GetScreenPosition).2).1.body = nullptr) :
    let r := OnTouched P c w touch
    r.ctrl = { c with state := TouchState.MovePivot } ∧
    r.trace = [Effect.BuildPickingRay touch.GetScreenPosition, Effect.Lock,
      Effect.HitTest touch.GetScreenPosition (P.BuildPickingRay w touch.GetScreenPosition).1
        (P.BuildPickingRay w touch.GetScreenPosition).2
        (P.HitTest w touch.GetScreenPosition (P.BuildPickingRay w touch.GetScreenPosition).1
          (P.BuildPickingRay w touch.GetScreenPosition).2).1,
      Effect.Unlock, Effect.KeepRendering] ∧
    r.trace.filter Effect.isAddPivotJoint = [] := by
  simp only [OnTouched, hIdle, OnTouched.caseNone, hDown, hCtrl]
  simp [hMiss, Effect.isAddPivotJoint]

/-- C2 amended, at a concrete input: the pointer-down at `(0, 0)` in the toy world. -/
theorem onTouched_miss_witness :
    (OnTouched toyPhysics (PhysicsDemoController.initial 99) toyWorld
      (touchAt .STARTED 0 0)).ctrl
      = { PhysicsDemoController.initial 99 with state := TouchState.MovePivot } ∧
    (OnTouched toyPhysics (PhysicsDemoController.initial 99) toyWorld
      (touchAt .STARTED 0 0)).trace
      = [Effect.BuildPickingRay ⟨0, 0⟩, Effect.Lock,
         Effect.HitTest ⟨0, 0⟩ ⟨0, 0, 0⟩ ⟨0, 0, 1⟩ ⟨nullptr, ⟨0, 0, 0⟩, 0⟩,
         Effect.Unlock, Effect.KeepRendering] ∧
    (OnTouched toyPhysics (PhysicsDemoController.initial 99) toyWorld
      (touchAt .STARTED 0 0)).trace.filter Effect.isAddPivotJoint = [] :=
  onTouched_miss toyPhysics (PhysicsDemoController.initial 99) toyWorld (touchAt .STARTED 0 0)
    (by decide) (by decide) (by decide) (by decide)

/-- C3. From Idle with Ctrl held, a pointer-down moves the state to MoveCameraXZ
without consulting the hit test: the controller is otherwise unchanged, the world
is unchanged, and the only calls are the picking ray and the render request.
After any events that are not a release, a pointer-finish or pointer-interrupted
returns the state to Idle, again with those two calls only, with the world as it
was and with the mouse body, picked body, picked constraint and saved activation
state still those of the start. -/
theorem onTouched_ctrl_pan {F W : Type} [Zero F] (K : KeyModifier) (P : PhysicsImpl F W)
    (c : PhysicsDemoController) (w : W) (touch : TouchEvent F)
    (hIdle : c.state = TouchState.None) (hCtrl : c.mCtrlDown = true)
    (hDown : touch.GetState = PointState.STARTED) :
    let r := OnTouched P c w touch
    r.ctrl = { c with state := TouchState.MoveCameraXZ } ∧ r.world = w ∧
    r.trace = [Effect.BuildPickingRay touch.GetScreenPosition, Effect.KeepRendering] ∧
    ∀ (mid : List (Event F W)) (fin : TouchEvent F),
      (∀ e ∈ mid, e.isRelease = false) → fin.isRelease = true →
      let m := run K P r.ctrl r.world mid
      let f := OnTouched P m.ctrl m.world fin
      f.ctrl.state = TouchState.None ∧
      f.ctrl.mPickedBody = c.mPickedBody ∧
      f.ctrl.mPickedConstraint = c.mPickedConstraint ∧
      f.ctrl.mPickedSavedState = c.mPickedSavedState ∧
      f.ctrl.mMouseBody = c.mMouseBody ∧
      f.world = m.world ∧
      f.trace = [Effect.BuildPickingRay fin.GetScreenPosition, Effect.KeepRendering] ∧
      f.trace.all (fun e => !e.isPhysicsOp) = true := by
  have hr : (OnTouched P c w touch).ctrl = { c with state := TouchState.MoveCameraXZ } ∧
      (OnTouched P c w touch).world = w ∧
      (OnTouched P c w touch).trace
        = [Effect.BuildPickingRay touch.GetScreenPosition, Effect.KeepRendering] := by
    simp [OnTouched, hIdle, OnTouched.caseNone, hDown, hCtrl]
  refine ⟨hr.1, hr.2.1, hr.2.2, ?_⟩
  intro mid fin hmid hfin
  have hbusy : (OnTouched P c w touch).ctrl.state ≠ TouchState.None := by
    rw [hr.1]; simp
  obtain ⟨h1, h2, h3, h4, h5⟩ :=
    run_busy_no_release K P mid (OnTouched P c w touch).ctrl (OnTouched P c w touch).world
      hbusy hmid
  rw [hr.1] at h1 h2 h3 h4 h5
  simp only at h1 h2 h3 h4 h5
  rw [hr.1]
  generalize (run K P { c with state := TouchState.MoveCameraXZ } (OnTouched P c w touch).world
    mid) = m at h1 h2 h3 h4 h5
  obtain ⟨g1, g2, g3⟩ := onTouched_pan_release P m.ctrl m.world fin h1 hfin
  simp only
  rw [g1, g2, g3]
  simp [h2, h3, h4, h5, Effect.isPhysicsOp]

/-- C3 at a concrete input: Ctrl-left down, pointer-down on body 7, a pointer-move,
Ctrl-left up, pointer-finish. -/
theorem onTouched_ctrl_pan_witness :
    (OnTouched toyPhysics { PhysicsDemoController.initial 99 with mCtrlDown := true }
      toyWorld (touchAt .STARTED 7 3)).ctrl.state = TouchState.MoveCameraXZ ∧
    (OnTouched toyPhysics { PhysicsDemoController.initial 99 with mCtrlDown := true }
      toyWorld (touchAt .STARTED 7 3)).trace
      = [Effect.BuildPickingRay ⟨7, 3⟩, Effect.KeepRendering] ∧
    (run toyKeys toyPhysics { PhysicsDemoController.initial 99 with mCtrlDown := true } toyWorld
      [.touch (touchAt .STARTED 7 3), .touch (touchAt .MOTION 8 3),
       .key ⟨.UP, 37, "", false⟩, .touch (touchAt .FINISHED 8 3)]).ctrl
      = PhysicsDemoController.initial 99 :=
  have h := onTouched_ctrl_pan toyKeys toyPhysics
    { PhysicsDemoController.initial 99 with mCtrlDown := true } toyWorld (touchAt .STARTED 7 3)
    (by decide) (by decide) (by decide)
  ⟨by rw [h.1], h.2.2.1, by decide⟩

/-- C4. In MovePivot with a picked body and a picked constraint, a pointer-finish or
pointer-interrupted nulls the picked constraint and the picked body, returns the
state to Idle and releases the constraint exactly once: the calls are
`HighlightBody(body, false)`, then under the lock `RestoreBodyState(body, saved)`
and `ReleaseConstraint(constraint)`, and the world left is the one
`P.ReleaseConstraint` leaves after `P.RestoreBodyState` after `P.HighlightBody`.
Any number of further finish or interrupted events leaves the controller and the
world as they are and issues no `RestoreBodyState`, `ReleaseConstraint` or
`HighlightBody`. -/
theorem onTouched_release_once {F W : Type} [Zero F] (K : KeyModifier) (P : PhysicsImpl F W)
    (c : PhysicsDemoController) (w : W) (fin : TouchEvent F)
    (hDrag : c.state = TouchState.MovePivot) (_hBody : c.mPickedBody ≠ nullptr)
    (hJoint : c.mPickedConstraint ≠ nullptr) (hFin : fin.isRelease = true) :
    let r := OnTouched P c w fin
    r.ctrl.mPickedConstraint = nullptr ∧ r.ctrl.mPickedBody = nullptr ∧
    r.ctrl.state = TouchState.None ∧
    r.ctrl = { c with mPickedConstraint := nullptr, mPickedBody := nullptr,
                      state := TouchState.None } ∧
    r.world = P.ReleaseConstraint
      (P.RestoreBodyState (P.HighlightBody w c.mPickedBody false) c.mPickedBody
        c.mPickedSavedState)
      c.mPickedConstraint ∧
    r.trace = [Effect.BuildPickingRay fin.GetScreenPosition,
      Effect.HighlightBody c.mPickedBody false, Effect.Lock,
      Effect.RestoreBodyState c.mPickedBody c.mPickedSavedState,
      Effect.ReleaseConstraint c.mPickedConstraint, Effect.Unlock, Effect.KeepRendering] ∧
    r.trace.filter Effect.isReleaseConstraint = [Effect.ReleaseConstraint c.mPickedConstraint] ∧
    ∀ (more : List (TouchEvent F)), (∀ t ∈ more, t.isRelease = true) →
      let m := run K P r.ctrl r.world (more.map Event.touch)
      m.ctrl = r.ctrl ∧ m.world = r.world ∧
      m.trace.filter (fun e => e.isRestoreBodyState || e.isReleaseConstraint
        || e.isHighlightBody) = [] := by
  have hr := onTouched_drag_release P c w fin hDrag hJoint hFin
  have hrel : (OnTouched P c w fin).trace.filter Effect.isReleaseConstraint
      = [Effect.ReleaseConstraint c.mPickedConstraint] := by
    rw [hr.2.2]; simp [Effect.isReleaseConstraint]
  refine ⟨by rw [hr.1], by rw [hr.1], by rw [hr.1], hr.1, hr.2.1, hr.2.2, hrel, ?_⟩
  have hidle : (OnTouched P c w fin).ctrl.state = TouchState.None := by rw [hr.1]
  generalize (OnTouched P c w fin).ctrl = c1 at hidle
  generalize (OnTouched P c w fin).world = w1
  intro more hmore
  induction more with
  | nil => simp [run]
  | cons t ts ih =>
    have ht := onTouched_idle_release P c1 w1 t hidle (hmore t (List.mem_cons_self _ _))
    have hts := ih (fun t1 h1 => hmore t1 (List.mem_cons_of_mem _ h1))
    simp only [List.map_cons, run, handle, ht.1, ht.2.1, ht.2.2]
    simp only at hts
    refine ⟨hts.1, hts.2.1, ?_⟩
    rw [List.filter_append, hts.2.2]
    simp [Effect.isRestoreBodyState, Effect.isReleaseConstraint, Effect.isHighlightBody]

/-- C4 at a concrete input: the toy controller dragging body 7 by joint 1, in a world
with that joint in place and the body highlighted, receives a pointer-finish,
then a pointer-interrupted and another pointer-finish. -/
theorem onTouched_release_once_witness :
    (OnTouched toyPhysics toyDragging toyDraggingWorld (touchAt .FINISHED 7 3)).ctrl
      = { PhysicsDemoController.initial 99 with mPickedSavedState := 1 } ∧
    (OnTouched toyPhysics toyDragging toyDraggingWorld (touchAt .FINISHED 7 3)).world
      = { sleeping := true, jointsMade := 1, joints := [], highlighted := [],
          mouseAt := ⟨0, 0, 0⟩ } ∧
    (OnTouched toyPhysics toyDragging toyDraggingWorld (touchAt .FINISHED 7 3)).trace.filter
      Effect.isReleaseConstraint = [Effect.ReleaseConstraint 1] ∧
    (run toyKeys toyPhysics
      (OnTouched toyPhysics toyDragging toyDraggingWorld (touchAt .FINISHED 7 3)).ctrl
      (OnTouched toyPhysics toyDragging toyDraggingWorld (touchAt .FINISHED 7 3)).world
      ([touchAt .INTERRUPTED 7 3, touchAt .FINISHED 7 3].map Event.touch)).ctrl
      = (OnTouched toyPhysics toyDragging toyDraggingWorld (touchAt .FINISHED 7 3)).ctrl :=
  have h := onTouched_release_once toyKeys toyPhysics toyDragging toyDraggingWorld
    (touchAt .FINISHED 7 3) (by decide) (by decide) (by decide) (by decide)
  ⟨h.2.2.2.1, h.2.2.2.2.1, h.2.2.2.2.2.2.1,
    (h.2.2.2.2.2.2.2 [touchAt .INTERRUPTED 7 3, touchAt .FINISHED 7 3] (by decide)).1⟩

/-- C5. Pick a body `b` (pointer-down from Idle, Ctrl not held, hit test returns `b`),
let any events follow that are not a release, then release (pointer-finish or
pointer-interrupted).  `ActivateBody` was called once at the pick, on `b`; the
value `P.ActivateBody` returned there, whatever it was (0 Active, 1 Sleeping), is
the saved activation state, and the release calls `RestoreBodyState` once, on
`b`, with that value: the world after the release is the one `P.ReleaseConstraint`
leaves after `P.RestoreBodyState` on `b` with that value, and the calls of the
release are those and the un-highlighting of `b`. -/
theorem pick_release_restores {F W : Type} [Zero F] (K : KeyModifier) (P : PhysicsImpl F W)
    (hJoints : P.JointsNonNull)
    (c : PhysicsDemoController) (w : W) (down fin : TouchEvent F) (b : Ptr)
    (mid : List (Event F W))
    (hIdle : c.state = TouchState.None) (hCtrl : c.mCtrlDown = false)
    (hDown : down.GetState = PointState.STARTED)
    (hBody : (P.HitTest w down.GetScreenPosition (P.BuildPickingRay w down.GetScreenPosition).1
      (P.BuildPickingRay w down.GetScreenPosition).2).1.body = b)
    (hHit : b ≠ nullptr)
    (hMid : ∀ e ∈ mid, e.isRelease = false) (hFin : fin.isRelease = true) :
    let ray := P.BuildPickingRay w down.GetScreenPosition
    let hit := P.HitTest w down.GetScreenPosition ray.1 ray.2
    let act := P.ActivateBody (P.HighlightBody hit.2 b true) b
    let joint := P.AddPivotJoint act.2 b c.mMouseBody hit.1.localPivot
    let r := OnTouched P c w down
    let m := run K P r.ctrl r.world mid
    let f := OnTouched P m.ctrl m.world fin
    r.trace.filter Effect.isActivateBody = [Effect.ActivateBody b act.1] ∧
    r.ctrl.mPickedSavedState = act.1 ∧
    r.ctrl.mPickedBody = b ∧
    r.ctrl.mPickedConstraint = joint.1 ∧
    f.trace.filter Effect.isRestoreBodyState = [Effect.RestoreBodyState b act.1] ∧
    f.trace = [Effect.BuildPickingRay fin.GetScreenPosition,
      Effect.HighlightBody b false, Effect.Lock, Effect.RestoreBodyState b act.1,
      Effect.ReleaseConstraint joint.1, Effect.Unlock, Effect.KeepRendering] ∧
    f.world = P.ReleaseConstraint
      (P.RestoreBodyState (P.HighlightBody m.world b false) b act.1) joint.1 ∧
    f.ctrl.mPickedBody = nullptr ∧ f.ctrl.mPickedConstraint = nullptr ∧
    f.ctrl.state = TouchState.None := by
  subst hBody
  obtain ⟨hctrl, _, htrace⟩ := onTouched_idle_hit P c w down hIdle hCtrl hDown hHit
  have hj : (P.AddPivotJoint
      (P.ActivateBody (P.HighlightBody (P.HitTest w down.GetScreenPosition
        (P.BuildPickingRay w down.GetScreenPosition).1
        (P.BuildPickingRay w down.GetScreenPosition).2).2
        (P.HitTest w down.GetScreenPosition (P.BuildPickingRay w down.GetScreenPosition).1
        (P.BuildPickingRay w down.GetScreenPosition).2).1.body true)
        (P.HitTest w down.GetScreenPosition (P.BuildPickingRay w down.GetScreenPosition).1
        (P.BuildPickingRay w down.GetScreenPosition).2).1.body).2
      (P.HitTest w down.GetScreenPosition (P.BuildPickingRay w down.GetScreenPosition).1
        (P.BuildPickingRay w down.GetScreenPosition).2).1.body c.mMouseBody
      (P.HitTest w down.GetScreenPosition (P.BuildPickingRay w down.GetScreenPosition).1
        (P.BuildPickingRay w down.GetScreenPosition).2).1.localPivot).1 ≠ nullptr :=
    hJoints _ _ _ _
  have hbusy : (OnTouched P c w down).ctrl.state ≠ TouchState.None := by
    rw [hctrl]; simp
  obtain ⟨h1, _, h3, h4, h5⟩ :=
    run_busy_no_release K P mid (OnTouched P c w down).ctrl (OnTouched P c w down).world
      hbusy hMid
  have k1 := h1.trans (congrArg PhysicsDemoController.state hctrl)
  have k3 := h3.trans (congrArg PhysicsDemoController.mPickedBody hctrl)
  have k4 := h4.trans (congrArg PhysicsDemoController.mPickedConstraint hctrl)
  have k5 := h5.trans (congrArg PhysicsDemoController.mPickedSavedState hctrl)
  simp only at k1 k3 k4 k5
  refine ⟨?_, by rw [hctrl], by rw [hctrl], by rw [hctrl], ?_⟩
  · rw [htrace]; simp [Effect.isActivateBody]
  · generalize (run K P (OnTouched P c w down).ctrl (OnTouched P c w down).world mid) = m
      at k1 k3 k4 k5
    obtain ⟨g1, g2, g3⟩ :=
      onTouched_drag_release P m.ctrl m.world fin k1 (by rw [k4]; exact hj) hFin
    rw [g1, g2, g3, k3, k4, k5]
    simp [Effect.isRestoreBodyState]

/-- C5 at concrete inputs: in the toy world body 7 is picked asleep (saved state 1),
dragged with Shift pressed on the way, and released, which puts it back to
sleep; picked awake, the saved state is 0. -/
theorem pick_release_restores_witness :
    (OnTouched toyPhysics (PhysicsDemoController.initial 99) toyWorld
      (touchAt .STARTED 7 3)).ctrl.mPickedSavedState = 1 ∧
    (OnTouched toyPhysics
      (run toyKeys toyPhysics
        (OnTouched toyPhysics (PhysicsDemoController.initial 99) toyWorld
          (touchAt .STARTED 7 3)).ctrl
        (OnTouched toyPhysics (PhysicsDemoController.initial 99) toyWorld
          (touchAt .STARTED 7 3)).world
        [.touch (touchAt .MOTION 8 4), .key ⟨.DOWN, 50, "", false⟩,
         .touch (touchAt .MOTION 9 5)]).ctrl
      (run toyKeys toyPhysics
        (OnTouched toyPhysics (PhysicsDemoController.initial 99) toyWorld
          (touchAt .STARTED 7 3)).ctrl
        (OnTouched toyPhysics (PhysicsDemoController.initial 99) toyWorld
          (touchAt .STARTED 7 3)).world
        [.touch (touchAt .MOTION 8 4), .key ⟨.DOWN, 50, "", false⟩,
         .touch (touchAt .MOTION 9 5)]).world
      (touchAt .INTERRUPTED 9 5)).trace.filter Effect.isRestoreBodyState
      = [Effect.RestoreBodyState 7 1] ∧
    (OnTouched toyPhysics
      (run toyKeys toyPhysics
        (OnTouched toyPhysics (PhysicsDemoController.initial 99) toyWorld
          (touchAt .STARTED 7 3)).ctrl
        (OnTouched toyPhysics (PhysicsDemoController.initial 99) toyWorld
          (touchAt .STARTED 7 3)).world
        [.touch (touchAt .MOTION 8 4), .key ⟨.DOWN, 50, "", false⟩,
         .touch (touchAt .MOTION 9 5)]).ctrl
      (run toyKeys toyPhysics
        (OnTouched toyPhysics (PhysicsDemoController.initial 99) toyWorld
          (touchAt .STARTED 7 3)).ctrl
        (OnTouched toyPhysics (PhysicsDemoController.initial 99) toyWorld
          (touchAt .STARTED 7 3)).world
        [.touch (touchAt .MOTION 8 4), .key ⟨.DOWN, 50, "", false⟩,
         .touch (touchAt .MOTION 9 5)]).world
      (touchAt .INTERRUPTED 9 5)).world
      = { sleeping := true, jointsMade := 1, joints := [], highlighted := [],
          mouseAt := ⟨8, 4, 0⟩ } ∧
    (OnTouched toyPhysics (PhysicsDemoController.initial 99) { toyWorld with sleeping := false }
      (touchAt .STARTED 7 3)).ctrl.mPickedSavedState = 0 :=
  have h := pick_release_restores toyKeys toyPhysics toyPhysics_jointsNonNull
    (PhysicsDemoController.initial 99) toyWorld
    (touchAt .STARTED 7 3) (touchAt .INTERRUPTED 9 5) 7
    [.touch (touchAt .MOTION 8 4), .key ⟨.DOWN, 50, "", false⟩, .touch (touchAt .MOTION 9 5)]
    (by decide) (by decide) (by decide) (by decide) (by decide) (by decide) (by decide)
  have h0 := pick_release_restores toyKeys toyPhysics toyPhysics_jointsNonNull
    (PhysicsDemoController.initial 99) { toyWorld with sleeping := false }
    (touchAt .STARTED 7 3) (touchAt .INTERRUPTED 9 5) 7 []
    (by decide) (by decide) (by decide) (by decide) (by decide) (by decide) (by decide)
  ⟨h.2.1, h.2.2.2.2.1, h.2.2.2.2.2.2.1, h0.2.1⟩

/-- C6. Outside Idle (MovePivot or MoveCameraXZ) a pointer-down leaves the whole
controller, hence the interaction state, the picked body, the picked constraint
and the saved activation state, and the world unchanged; it issues the picking
ray and the render request only, so no hit test and no constraint. -/
theorem onTouched_busy_down_ignored {F W : Type} [Zero F] (P : PhysicsImpl F W)
    (c : PhysicsDemoController) (w : W) (touch : TouchEvent F)
    (hBusy : c.state ≠ TouchState.None) (hDown : touch.GetState = PointState.STARTED) :
    let r := OnTouched P c w touch
    r.ctrl = c ∧ r.world = w ∧
    r.trace = [Effect.BuildPickingRay touch.GetScreenPosition, Effect.KeepRendering] ∧
    r.trace.filter Effect.isHitTest = [] ∧
    r.trace.filter Effect.isAddPivotJoint = [] := by
  unfold OnTouched
  cases hs : c.state with
  | None => exact absurd hs hBusy
  | MovePivot => simp [OnTouched.caseMovePivot, hDown, Effect.isHitTest, Effect.isAddPivotJoint]
  | MoveCameraXZ =>
    simp [OnTouched.caseMoveCameraXZ, hDown, Effect.isHitTest, Effect.isAddPivotJoint]

/-- C6 at a concrete input: the toy controller dragging body 7 receives a
pointer-down on body 5. -/
theorem onTouched_busy_down_ignored_witness :
    (OnTouched toyPhysics toyDragging toyWorld (touchAt .STARTED 5 5)).ctrl = toyDragging ∧
    (OnTouched toyPhysics toyDragging toyWorld (touchAt .STARTED 5 5)).world = toyWorld ∧
    (OnTouched toyPhysics toyDragging toyWorld (touchAt .STARTED 5 5)).trace
      = [Effect.BuildPickingRay ⟨5, 5⟩, Effect.KeepRendering] ∧
    (OnTouched toyPhysics toyDragging toyWorld (touchAt .STARTED 5 5)).trace.filter
      Effect.isHitTest = [] ∧
    (OnTouched toyPhysics toyDragging toyWorld (touchAt .STARTED 5 5)).trace.filter
      Effect.isAddPivotJoint = [] :=
  onTouched_busy_down_ignored toyPhysics toyDragging toyWorld (touchAt .STARTED 5 5)
    (by decide) (by decide)

/-- C7. Provided `AddPivotJoint` returns the joint it added (never `nullptr`), in
every controller state reachable from the initial one by touch events, key events
and physics steps, the picked constraint is non-null exactly when the state is
MovePivot and the picked body is non-null; and whatever event comes next, the
picked body is cleared by it exactly when the picked constraint is. -/
theorem reachable_constraint_iff {F W : Type} [Zero F] (K : KeyModifier) (P : PhysicsImpl F W)
    (hJoints : P.JointsNonNull) (mouseBody : Ptr) (c : PhysicsDemoController)
    (hReach : Reachable K P mouseBody c) :
    (c.mPickedConstraint ≠ nullptr ↔
      (c.state = TouchState.MovePivot ∧ c.mPickedBody ≠ nullptr)) ∧
    ∀ (w : W) (e : Event F W),
      ((c.mPickedBody ≠ nullptr ∧ (handle K P c w e).ctrl.mPickedBody = nullptr) ↔
       (c.mPickedConstraint ≠ nullptr ∧
        (handle K P c w e).ctrl.mPickedConstraint = nullptr)) := by
  have hInv := reachable_pickInvariant K P hJoints mouseBody c hReach
  refine ⟨⟨fun h => ⟨hInv.2 h, hInv.1.mpr h⟩, fun h => hInv.1.mp h.2⟩, ?_⟩
  intro w e
  have hInv1 := handle_pickInvariant K P hJoints c w e hInv
  constructor
  · rintro ⟨h1, h2⟩
    refine ⟨hInv.1.mp h1, ?_⟩
    by_contra h
    exact (hInv1.1.mpr h) h2
  · rintro ⟨h1, h2⟩
    refine ⟨hInv.1.mpr h1, ?_⟩
    by_contra h
    exact (hInv1.1.mp h) h2

/-- C7 at a concrete input: the toy controller after a pointer-down on body 7. -/
theorem reachable_constraint_iff_witness :
    ((handle toyKeys toyPhysics (PhysicsDemoController.initial 99) toyWorld
        (.touch (touchAt .STARTED 7 3))).ctrl.mPickedConstraint ≠ nullptr ↔
      ((handle toyKeys toyPhysics (PhysicsDemoController.initial 99) toyWorld
        (.touch (touchAt .STARTED 7 3))).ctrl.state = TouchState.MovePivot ∧
       (handle toyKeys toyPhysics (PhysicsDemoController.initial 99) toyWorld
        (.touch (touchAt .STARTED 7 3))).ctrl.mPickedBody ≠ nullptr)) ∧
    (handle toyKeys toyPhysics (PhysicsDemoController.initial 99) toyWorld
        (.touch (touchAt .STARTED 7 3))).ctrl.mPickedConstraint = 1 :=
  ⟨(reachable_constraint_iff toyKeys toyPhysics toyPhysics_jointsNonNull 99
      (handle toyKeys toyPhysics (PhysicsDemoController.initial 99) toyWorld
        (.touch (touchAt .STARTED 7 3))).ctrl
      (Reachable.step _ toyWorld (.touch (touchAt .STARTED 7 3)) Reachable.init)).1,
   by decide⟩

end PhysicsDemo

namespace Demo

open Dali

/-- With no animation handle held and both transitions empty, `SetVisibility`
creates nothing, plays nothing and writes the flag at once. -/
theorem setVisibility_immediate {F T : Type} (K : Toolkit F T) (c : ImageChannelControl F)
    (t : T) (v : Bool) (hAnim : c.mAnimation = none)
    (hEnable : c.mEnableVisibilityTransition.Count = 0)
    (hDisable : c.mDisableVisibilityTransition.Count = 0) :
    (SetVisibility K c t v).impl = { c with mVisibility := v } ∧
    (SetVisibility K c t v).trace = [Effect.printf v] := by
  simp [SetVisibility, Outcome.call, hAnim, hEnable, hDisable]

/-- C8, the code at the failing input.  After `staleAnimationRun` both transitions
are empty and the animation of the earlier hide is still held; `SetVisibility(true)`
then replays that animation and leaves the flag where it was:
`GetProperty(VISIBILITY)` is `false` directly after the call. -/
theorem setVisibility_stale_animation_defers :
    (steps toyToolkit ImageChannelControl.ctor 0
      staleAnimationRun).impl.mEnableVisibilityTransition.Count = 0 ∧
    (steps toyToolkit ImageChannelControl.ctor 0
      staleAnimationRun).impl.mDisableVisibilityTransition.Count = 0 ∧
    (steps toyToolkit ImageChannelControl.ctor 0 staleAnimationRun).impl.mAnimation = some 1 ∧
    (SetVisibility toyToolkit
      (steps toyToolkit ImageChannelControl.ctor 0 staleAnimationRun).impl
      (steps toyToolkit ImageChannelControl.ctor 0 staleAnimationRun).world true).trace.filter
      Effect.isPlay = [Effect.Play (some 1)] ∧
    GetProperty (SetVisibility toyToolkit
      (steps toyToolkit ImageChannelControl.ctor 0 staleAnimationRun).impl
      (steps toyToolkit ImageChannelControl.ctor 0 staleAnimationRun).world true).impl
      .VISIBILITY = .BOOLEAN false := by
  refine ⟨by decide, by decide, by decide, rfl, rfl⟩

/-- C9, the claim as stated fails: after `hidingRun` the flag is `true`, the disable
transition is non-empty and `false` differs from the flag, yet the flag is `false`
directly after `SetVisibility(false)`: the animation in progress is finished on
the spot, which commits its target. -/
theorem setVisibility_defers_counterexample :
    (steps toyToolkit ImageChannelControl.ctor 0 hidingRun).impl.mVisibility = true ∧
    0 < (steps toyToolkit ImageChannelControl.ctor 0
      hidingRun).impl.mDisableVisibilityTransition.Count ∧
    false ≠ (steps toyToolkit ImageChannelControl.ctor 0 hidingRun).impl.mVisibility ∧
    (SetVisibility toyToolkit (steps toyToolkit ImageChannelControl.ctor 0 hidingRun).impl
      (steps toyToolkit ImageChannelControl.ctor 0 hidingRun).world false).impl.mVisibility
      = false := by
  decide

/-- C9, amended.  Let `cur` be the flag once an animation still held has been
finished (the target if an animation is held, else the flag).  If `v` differs
from `cur`, the transition for the direction (enable for `v` true, disable for `v`
false) is non-empty and the `CreateTransition` call the method makes for it, in
the toolkit state reached by then, returns an animation, then `SetVisibility(v)`
stores that animation in `mAnimation`, connects and plays it and plays nothing
else, leaves the flag at `cur` (so `GetProperty(VISIBILITY)` is not `v`) with `v` as
the target, and `OnStateChangeAnimationFinished` then sets the flag to `v`. -/
theorem setVisibility_animated {F T : Type} (K : Toolkit F T) (c : ImageChannelControl F)
    (t : T) (v : Bool)
    (hDiff : v ≠ (if c.mAnimation.isSome then c.mTargetVisibility else c.mVisibility))
    (hCount : 0 < (if v then c.mEnableVisibilityTransition
      else c.mDisableVisibilityTransition).Count)
    (hMade : (K.CreateTransition
      (if c.mAnimation.isSome then
        K.perform (K.perform (K.perform t (.printf v)) (.Stop c.mAnimation))
          (.Disconnect c.mAnimation)
       else K.perform t (.printf v))
      (if v then c.mEnableVisibilityTransition
        else c.mDisableVisibilityTransition)).1.isSome = true) :
    let data := if v then c.mEnableVisibilityTransition else c.mDisableVisibilityTransition
    let before := if c.mAnimation.isSome then
        K.perform (K.perform (K.perform t (.printf v)) (.Stop c.mAnimation))
          (.Disconnect c.mAnimation)
      else K.perform t (.printf v)
    let made := K.CreateTransition before data
    let r := SetVisibility K c t v
    r.impl.mAnimation.isSome = true ∧
    Effect.CreateTransition data r.impl.mAnimation ∈ r.trace ∧
    r.trace.filter Effect.isPlay = [Effect.Play r.impl.mAnimation] ∧
    r.impl.mVisibility = (!v) ∧
    r.impl.mTargetVisibility = v ∧
    GetProperty r.impl .VISIBILITY = .BOOLEAN (!v) ∧
    (OnStateChangeAnimationFinished r.impl).mVisibility = v ∧
    r.impl = { c with mAnimation := made.1, mVisibility := !v, mTargetVisibility := v } ∧
    r.world = K.perform (K.perform made.2 (.Connect made.1)) (.Play made.1) ∧
    r.trace = (Effect.printf v ::
      (if c.mAnimation.isSome then [Effect.Stop c.mAnimation, Effect.Disconnect c.mAnimation]
       else [])) ++
      [Effect.CreateTransition data made.1, Effect.Connect made.1, Effect.Play made.1] := by
  cases hA : c.mAnimation with
  | none =>
    cases v <;> cases hV : c.mVisibility <;>
      simp_all [SetVisibility, SetVisibility.create, Outcome.call, Effect.isPlay,
        GetProperty, OnStateChangeAnimationFinished]
  | some a =>
    cases v <;> cases hV : c.mTargetVisibility <;>
      simp_all [SetVisibility, SetVisibility.create, Outcome.call, Effect.isPlay,
        GetProperty, OnStateChangeAnimationFinished]

/-- C9 amended, at concrete inputs: hiding the visible toy control, which has a
one-animator disable transition and holds no animation; and the same with a
toolkit that makes an animation in state 0 only, the state of the call. -/
theorem setVisibility_animated_witness :
    (SetVisibility toyToolkit toyControl 0 false).impl.mAnimation.isSome = true ∧
    Effect.CreateTransition toyControl.mDisableVisibilityTransition
      (SetVisibility toyToolkit toyControl 0 false).impl.mAnimation
      ∈ (SetVisibility toyToolkit toyControl 0 false).trace ∧
    (SetVisibility toyToolkit toyControl 0 false).trace.filter Effect.isPlay
      = [Effect.Play (SetVisibility toyToolkit toyControl 0 false).impl.mAnimation] ∧
    (SetVisibility toyToolkit toyControl 0 false).impl.mVisibility = true ∧
    (SetVisibility toyToolkit toyControl 0 false).impl.mTargetVisibility = false ∧
    GetProperty (SetVisibility toyToolkit toyControl 0 false).impl .VISIBILITY
      = .BOOLEAN true ∧
    (OnStateChangeAnimationFinished
      (SetVisibility toyToolkit toyControl 0 false).impl).mVisibility = false ∧
    (SetVisibility toyToolkit toyControl 0 false).impl
      = { toyControl with mAnimation := some 1, mVisibility := true,
                          mTargetVisibility := false } ∧
    (SetVisibility toyToolkit toyControl 0 false).world = 1 ∧
    (SetVisibility toyToolkit toyControl 0 false).trace
      = [Effect.printf false,
         Effect.CreateTransition toyControl.mDisableVisibilityTransition (some 1),
         Effect.Connect (some 1), Effect.Play (some 1)] ∧
    (toyStagedToolkit.CreateTransition 1 toyControl.mDisableVisibilityTransition).1 = none ∧
    (SetVisibility toyStagedToolkit toyControl 0 false).impl
      = { toyControl with mAnimation := some 1, mVisibility := true,
                          mTargetVisibility := false } :=
  have h := setVisibility_animated toyToolkit toyControl 0 false
    (by decide) (by decide) (by decide)
  have hs := setVisibility_animated toyStagedToolkit toyControl 0 false
    (by decide) (by decide) (by decide)
  ⟨h.1, h.2.1, h.2.2.1, h.2.2.2.1, h.2.2.2.2.1, h.2.2.2.2.2.1, h.2.2.2.2.2.2.1,
   h.2.2.2.2.2.2.2.1, h.2.2.2.2.2.2.2.2.1, h.2.2.2.2.2.2.2.2.2, by decide,
   hs.2.2.2.2.2.2.2.1⟩

end Demo

namespace PhysicsDemo

open Dali

/-- C11. On a pointer-move at screen position `s`: in MovePivot with a picked body
and a picked constraint, if Shift is not held exactly one `MoveMouseBody` is
issued, `MoveMouseBody(mMouseBody, TranslateToPhysicsSpace(Vector3(s)))`, and if
Shift is held none is issued and the world is as it was; either way the
controller, hence the interaction state, the picked body and the picked
constraint, is unchanged.  In any state with no picked body a pointer-move issues
no `MoveMouseBody` and leaves the controller and the world unchanged. -/
theorem onTouched_motion {F W : Type} [Zero F] (P : PhysicsImpl F W)
    (c : PhysicsDemoController) (w : W) (touch : TouchEvent F)
    (hMove : touch.GetState = PointState.MOTION) :
    let r := OnTouched P c w touch
    (c.state = TouchState.MovePivot → c.mPickedBody ≠ nullptr →
      c.mPickedConstraint ≠ nullptr →
      (c.mShiftDown = false →
        r.trace.filter Effect.isMoveMouseBody
          = [Effect.MoveMouseBody c.mMouseBody
              (P.TranslateToPhysicsSpace w (Vector3.ofVector2 touch.GetScreenPosition))] ∧
        Effect.TranslateToPhysicsSpace (Vector3.ofVector2 touch.GetScreenPosition) ∈ r.trace ∧
        r.world = P.MoveMouseBody w c.mMouseBody
          (P.TranslateToPhysicsSpace w (Vector3.ofVector2 touch.GetScreenPosition))) ∧
      (c.mShiftDown = true →
        r.trace.filter Effect.isMoveMouseBody = [] ∧ r.world = w) ∧
      r.ctrl = c) ∧
    (c.mPickedBody = nullptr →
      r.trace.filter Effect.isMoveMouseBody = [] ∧ r.ctrl = c ∧ r.world = w) := by
  constructor
  · intro hDrag hBody hJoint
    simp only [OnTouched, hDrag, OnTouched.caseMovePivot, hMove, if_true]
    refine ⟨?_, ?_, ?_⟩
    · intro hShift
      simp [hBody, hJoint, hShift, Effect.isMoveMouseBody]
    · intro hShift
      simp [hBody, hJoint, hShift, Effect.isMoveMouseBody]
    · split_ifs <;> rfl
  · intro hNone
    unfold OnTouched
    cases hs : c.state with
    | None => simp [OnTouched.caseNone, hMove, Effect.isMoveMouseBody]
    | MovePivot => simp [OnTouched.caseMovePivot, hMove, hNone, Effect.isMoveMouseBody]
    | MoveCameraXZ => simp [OnTouched.caseMoveCameraXZ, hMove, Effect.isMoveMouseBody]

/-- C11 at concrete inputs: the toy controller dragging body 7 receives a
pointer-move at `(8, 4)`, without Shift and with Shift; the idle toy controller
receives the same pointer-move. -/
theorem onTouched_motion_witness :
    (OnTouched toyPhysics toyDragging toyWorld (touchAt .MOTION 8 4)).trace.filter
      Effect.isMoveMouseBody = [Effect.MoveMouseBody 99 ⟨8, 4, 0⟩] ∧
    (OnTouched toyPhysics { toyDragging with mShiftDown := true } toyWorld
      (touchAt .MOTION 8 4)).trace.filter Effect.isMoveMouseBody = [] ∧
    (OnTouched toyPhysics toyDragging toyWorld (touchAt .MOTION 8 4)).ctrl = toyDragging ∧
    (OnTouched toyPhysics (PhysicsDemoController.initial 99) toyWorld
      (touchAt .MOTION 8 4)).trace.filter Effect.isMoveMouseBody = [] :=
  ⟨((onTouched_motion toyPhysics toyDragging toyWorld (touchAt .MOTION 8 4) (by decide)).1
      (by decide) (by decide) (by decide)).1 (by decide) |>.1,
   ((onTouched_motion toyPhysics { toyDragging with mShiftDown := true } toyWorld
      (touchAt .MOTION 8 4) (by decide)).1 (by decide) (by decide) (by decide)).2.1
      (by decide) |>.1,
   ((onTouched_motion toyPhysics toyDragging toyWorld (touchAt .MOTION 8 4) (by decide)).1
      (by decide) (by decide) (by decide)).2.2,
   ((onTouched_motion toyPhysics (PhysicsDemoController.initial 99) toyWorld
      (touchAt .MOTION 8 4) (by decide)).2 (by decide)).1⟩

/-- C12. Whatever the controller state, the world and the touch event, the calls
`OnTouched` issues keep the lock discipline: starting without the mutex, every
`HitTest`, `ActivateBody`, `RestoreBodyState`, `AddPivotJoint`,
`ReleaseConstraint` and `MoveMouseBody` comes after a `Lock` and before the
`Unlock` that follows it; and the mutex is not held when the handler returns. -/
theorem onTouched_lockDiscipline {F W : Type} [Zero F] (P : PhysicsImpl F W)
    (c : PhysicsDemoController) (w : W) (touch : TouchEvent F) :
    lockDiscipline false (OnTouched P c w touch).trace = true ∧
    heldAtEnd false (OnTouched P c w touch).trace = false := by
  unfold OnTouched
  cases hs : c.state with
  | None =>
    simp only [OnTouched.caseNone]
    split_ifs <;>
      simp [lockDiscipline, heldAtEnd, Effect.isSharedPhysicsAccess, Effect.heldAfter]
  | MovePivot =>
    simp only [OnTouched.caseMovePivot]
    split_ifs <;>
      simp [lockDiscipline, heldAtEnd, Effect.isSharedPhysicsAccess, Effect.heldAfter]
  | MoveCameraXZ =>
    simp only [OnTouched.caseMoveCameraXZ]
    split_ifs <;>
      simp [lockDiscipline, heldAtEnd, Effect.isSharedPhysicsAccess, Effect.heldAfter]

/-- The lock discipline is a real constraint: an access to the shared state with the
mutex not held breaks it, and so does one made after the mutex was given back. -/
theorem lockDiscipline_rejects_unlocked :
    lockDiscipline false [(Effect.ReleaseConstraint 1 : Effect Int)] = false ∧
    lockDiscipline false
      [(Effect.Lock : Effect Int), Effect.Unlock, Effect.RestoreBodyState 7 1] = false := by
  decide

/-- Where the product of width and height fits an `int`, the ball count is defined
and is `10 + width * height / 20000`. -/
theorem numBalls_in_range (windowSize : WindowSize)
    (hFits : windowSize.GetWidth * windowSize.GetHeight ≤ 2147483647) :
    numBalls windowSize
      = some (((10 + windowSize.GetWidth * windowSize.GetHeight / 20000 : Nat) : Int)) := by
  unfold numBalls
  rw [← Nat.cast_mul]
  generalize windowSize.GetWidth * windowSize.GetHeight = n at hFits
  have hprod : intResult (n : Int) = some (n : Int) := by
    unfold intResult INT_MIN INT_MAX
    rw [if_pos]
    omega
  rw [hprod, Option.some_bind, Int.tdiv_eq_ediv (Int.ofNat_nonneg n) (by norm_num)]
  unfold intResult INT_MIN INT_MAX
  rw [if_pos (by omega)]
  congr 1

/-- Whatever the window size, where `OnInit` has an outcome its last call is
`AddMouseBody`, after the loop that creates the balls, and the result of that
call is stored as the mouse body. -/
theorem onInit_mouseBody_last (windowSize : WindowSize) (c : PhysicsDemoController)
    (mouseBody : Ptr) (r : PhysicsDemoController × List InitEffect)
    (h : OnInit windowSize c mouseBody = some r) :
    r.2.getLast? = some (InitEffect.AddMouseBody mouseBody) ∧ r.1.mMouseBody = mouseBody := by
  unfold OnInit at h
  cases hn : numBalls windowSize with
  | none => simp [hn] at h
  | some n =>
    simp only [hn, Option.map_some', Option.some.injEq] at h
    subst h
    exact ⟨List.getLast?_concat _, rfl⟩

/-- C14, the claim as stated fails: 50000 and 65535 are `uint16_t` values, but the
products 50000 * 50000 and 65535 * 65535 exceed `INT_MAX`, so the `int`
multiplication overflows and neither the ball count nor `OnInit` has a defined
outcome there; in particular the source does not make `OnInit` create the
`125010` balls the claim gives for 50000 by 50000. -/
theorem onInit_overflow_counterexample :
    (50000 : Nat) < 65536 ∧ (65535 : Nat) < 65536 ∧
    INT_MAX < (50000 : Int) * 50000 ∧
    (10 + 50000 * 50000 / 20000 : Nat) = 125010 ∧
    numBalls ⟨50000, 50000⟩ = none ∧
    OnInit ⟨50000, 50000⟩ (PhysicsDemoController.initial 0) 99 = none ∧
    numBalls ⟨50000, 50000⟩ ≠ some 125010 ∧
    OnInit ⟨65535, 65535⟩ (PhysicsDemoController.initial 0) 99 = none := by
  decide

/-- C14, amended.  For every window size whose width times height is at most
`INT_MAX` (2147483647), `OnInit` creates exactly `10 + width * height / 20000`
balls, so at least 10, the count being computed in `int` without overflow, and
adds the mouse body after the last ball: its calls are the seven of the set-up,
then that many `CreateBall`, then `AddMouseBody`, whose result is stored. -/
theorem onInit_balls (windowSize : WindowSize) (c : PhysicsDemoController) (mouseBody : Ptr)
    (hFits : windowSize.GetWidth * windowSize.GetHeight ≤ 2147483647) :
    numBalls windowSize
      = some (((10 + windowSize.GetWidth * windowSize.GetHeight / 20000 : Nat) : Int)) ∧
    OnInit windowSize c mouseBody
      = some ({ c with mMouseBody := mouseBody },
          [InitEffect.ConnectResize, .ConnectKeyEvent, .KeepRendering, .SetBackgroundColor,
           .Initialize, .ConnectTouched, .AddPhysicsRoot]
          ++ List.replicate (10 + windowSize.GetWidth * windowSize.GetHeight / 20000)
              InitEffect.CreateBall
          ++ [InitEffect.AddMouseBody mouseBody]) ∧
    ∀ r, OnInit windowSize c mouseBody = some r →
      (r.2.filter InitEffect.isCreateBall).length
        = 10 + windowSize.GetWidth * windowSize.GetHeight / 20000 ∧
      10 ≤ (r.2.filter InitEffect.isCreateBall).length ∧
      r.2.getLast? = some (InitEffect.AddMouseBody mouseBody) := by
  have hnum := numBalls_in_range windowSize hFits
  have hinit : OnInit windowSize c mouseBody
      = some ({ c with mMouseBody := mouseBody },
          [InitEffect.ConnectResize, .ConnectKeyEvent, .KeepRendering, .SetBackgroundColor,
           .Initialize, .ConnectTouched, .AddPhysicsRoot]
          ++ List.replicate (10 + windowSize.GetWidth * windowSize.GetHeight / 20000)
              InitEffect.CreateBall
          ++ [InitEffect.AddMouseBody mouseBody]) := by
    unfold OnInit
    rw [hnum, Option.map_some', Int.toNat_ofNat]
  refine ⟨hnum, hinit, ?_⟩
  intro r hr
  rw [hinit] at hr
  simp only [Option.some.injEq] at hr
  subst hr
  refine ⟨?_, ?_, List.getLast?_concat _⟩
  · simp [InitEffect.isCreateBall, List.filter_append, List.filter_replicate]
  · simp [InitEffect.isCreateBall, List.filter_append, List.filter_replicate]

/-- C14 amended, at a concrete input: a window of 1920 by 1080 gets 113 balls, then
the mouse body. -/
theorem onInit_balls_witness :
    numBalls ⟨1920, 1080⟩ = some 113 ∧
    OnInit ⟨1920, 1080⟩ (PhysicsDemoController.initial 0) 99
      = some (PhysicsDemoController.initial 99,
          [InitEffect.ConnectResize, .ConnectKeyEvent, .KeepRendering, .SetBackgroundColor,
           .Initialize, .ConnectTouched, .AddPhysicsRoot]
          ++ List.replicate 113 InitEffect.CreateBall
          ++ [InitEffect.AddMouseBody 99]) :=
  ⟨(onInit_balls ⟨1920, 1080⟩ (PhysicsDemoController.initial 0) 99 (by decide)).1,
   (onInit_balls ⟨1920, 1080⟩ (PhysicsDemoController.initial 0) 99 (by decide)).2.1⟩

end PhysicsDemo

namespace Demo

open Dali

end Demo
